import Mathlib

/-!
Verification of the HLMF feedback-driven optimization engine.

This file is a shallow embedding, in Lean 4, of the parts of the HLMF
repository that the verified properties speak about:

* `src/optimization/preference_optimizer.py` (class PreferenceOptimizer)
* `src/optimization/response_optimizer.py`   (class ResponseOptimizer)
* `src/optimization/feedback_store.py`       (class FeedbackStore)
* `src/optimization/feedback_collector.py`   (class FeedbackCollector)
* `src/optimization/manager.py`              (class FeedbackOptimizationManager)
* `src/core/group_discussion.py`             (class GroupDiscussionManager)

Modelling conventions:
* Python floats are modelled as exact rationals (`ℚ`).
* Python dicts are modelled as association lists (`List (String × α)`)
  with insertion-order semantics: updating an existing key keeps its
  position, inserting a new key appends it.  This matches CPython dict
  iteration order, which the source relies on.
* A Python method that can raise is modelled with an explicit error
  output (an `Option`, or a `Bool` success flag next to the updated
  state) instead of an exception.
* Wall-clock time and `random` are modelled as explicit oracle
  parameters, since they do not influence any verified property beyond
  being opaque strings/choices.
-/

namespace HLMF

/-! ## Association-list dictionaries (Python dict model) -/

/-- Lookup in an association list (Python `d.get(k)` / `d[k]`). -/
def dget? {α : Type} (m : List (String × α)) (k : String) : Option α :=
  (m.find? (fun p => p.1 == k)).map (fun p => p.2)

/-- Lookup with default (Python `d.get(k, default)`). -/
def dgetD {α : Type} (m : List (String × α)) (k : String) (d : α) : α :=
  (dget? m k).getD d

/-- Key membership (Python `k in d`). -/
def dmem {α : Type} (m : List (String × α)) (k : String) : Bool :=
  (dget? m k).isSome

/-- Write `d[k] = v`: update in place if the key exists (keeping its
position), append otherwise.  This is CPython dict assignment. -/
def dset {α : Type} (m : List (String × α)) (k : String) (v : α) : List (String × α) :=
  if dmem m k then m.map (fun p => if p.1 == k then (k, v) else p)
  else m ++ [(k, v)]

/-- The key list, in insertion order (Python `list(d.keys())`). -/
def dkeys {α : Type} (m : List (String × α)) : List String :=
  m.map (fun p => p.1)

/-! ## String helpers mirroring Python primitives -/

/-- Bool-valued prefix test on lists. -/
def isPrefixB {α : Type} [BEq α] : List α → List α → Bool
  | [], _ => true
  | _ :: _, [] => false
  | a :: as, b :: bs => a == b && isPrefixB as bs

/-- Bool-valued contiguous-sublist test: does `hay` contain `needle`? -/
def isInfixB {α : Type} [BEq α] (needle : List α) : List α → Bool
  | [] => needle.isEmpty
  | b :: bs => isPrefixB needle (b :: bs) || isInfixB needle bs

/-- Python substring test `needle in hay`. -/
def strContainsB (hay needle : String) : Bool :=
  isInfixB needle.toList hay.toList

/-- Python `s.count(c)` for a single character. -/
def countChar (s : String) (c : Char) : Nat :=
  (s.toList.filter (fun d => d == c)).length

/-- Python `s.lower()` as a character-wise map (the source only
lowercases ASCII keyword text, for which `Char.toLower` agrees with
`str.lower`). -/
def pyLower (s : String) : String :=
  String.mk (s.toList.map Char.toLower)

/-- Python `str.split()` (split on whitespace runs, dropping empties). -/
def pySplit (s : String) : List String :=
  (s.split (fun c => c.isWhitespace)).filter (fun w => w ≠ "")

/-- Byte/code-point lexicographic order on strings as a Bool, used to
model SQLite `ORDER BY` on TEXT columns. -/
def charListLeB : List Char → List Char → Bool
  | [], _ => true
  | _ :: _, [] => false
  | a :: as, b :: bs =>
    if a.toNat < b.toNat then true
    else if b.toNat < a.toNat then false
    else charListLeB as bs

/-- String comparison `a ≤ b` as a Bool (lexicographic on code points). -/
def strLeB (a b : String) : Bool :=
  charListLeB a.toList b.toList

/-! ## PreferenceOptimizer: configuration and state

Mirrors `src/optimization/preference_optimizer.py`. -/

/-- One entry of the `models` configuration list.  `name = ""` encodes a
configuration entry whose `name` is missing or empty (both are falsy in
the Python guards `if not model_name: continue` and
`if model.get("name")`). -/
structure ModelConfig where
  name : String
  strengths : List (String × ℚ)

/-- The `group_discussion` configuration section, present only when the
config has a `group_discussion` dict containing a `"name"` key. -/
structure GroupDiscussionConfig where
  name : String
  strengths : List (String × ℚ)

/-- The tunables read in `PreferenceOptimizer.__init__` with their
`config.get` defaults. -/
structure PrefParams where
  weightUpdateFactor : ℚ
  winRateWeight : ℚ
  scoreWeight : ℚ
  defaultWeight : ℚ
  minWeight : ℚ
  maxWeight : ℚ

/-- The defaults hard-coded in `PreferenceOptimizer.__init__`:
0.1, 0.7, 0.3, 1.0, 0.5, 2.0. -/
def defaultPrefParams : PrefParams :=
  { weightUpdateFactor := 0.1
    winRateWeight := 0.7
    scoreWeight := 0.3
    defaultWeight := 1.0
    minWeight := 0.5
    maxWeight := 2.0 }

/-- The slice of the system configuration the optimizer reads. -/
structure OptConfig where
  models : List ModelConfig
  groupDiscussion : Option GroupDiscussionConfig
  pref : PrefParams

/-- The fixed capability vocabulary `strength_categories` (19 entries). -/
def strengthCategories : List String :=
  ["programming", "analysis", "creative", "reasoning",
   "math", "language", "technical_explanation", "evaluation",
   "critical_thinking", "problem_solving", "algorithms",
   "conciseness", "clarity", "summarization", "general_knowledge",
   "communication", "balanced", "comprehensive", "thorough"]

/-- Normalization loop shared by `_load_model_strengths`: every category
gets the configured value, defaulting to `d` when unspecified. -/
def normalizeStrengths (cfgStrengths : List (String × ℚ)) (d : ℚ) : List (String × ℚ) :=
  strengthCategories.map (fun c => (c, dgetD cfgStrengths c d))

/-- `PreferenceOptimizer._load_model_strengths`: configured models
(skipping falsy names, default affinity 0.5) plus the group-discussion
pseudo-model (default affinity 0.7) when configured. -/
def loadModelStrengths (cfg : OptConfig) : List (String × List (String × ℚ)) :=
  let base := (cfg.models.filter (fun m => m.name ≠ "")).foldl
    (fun acc m => dset acc m.name (normalizeStrengths m.strengths 0.5)) []
  match cfg.groupDiscussion with
  | some g => dset base g.name (normalizeStrengths g.strengths 0.7)
  | none => base

/-- Mutable state of a `PreferenceOptimizer` instance.  The per-model
performance cache maps cache keys to (model → (score, count)). -/
structure OptState where
  modelStrengths : List (String × List (String × ℚ))
  modelsConfig : List ModelConfig
  weightUpdateFactor : ℚ
  winRateWeight : ℚ
  scoreWeight : ℚ
  defaultWeight : ℚ
  minWeight : ℚ
  maxWeight : ℚ
  modelSelectionCount : List (String × Nat)
  modelWinRate : List (String × ℚ)
  modelAvgScore : List (String × ℚ)
  modelWeights : List (String × ℚ)
  modelPerformanceCache : List (String × List (String × (ℚ × Nat)))

/-- `__init__` followed by `_initialize_weights`: every model known from
the strengths table starts at weight `default_weight`, selection count
0, win rate 0.5, average score 0.5. -/
def initialState (cfg : OptConfig) : OptState :=
  let strengths := loadModelStrengths cfg
  let ks := dkeys strengths
  { modelStrengths := strengths
    modelsConfig := cfg.models
    weightUpdateFactor := cfg.pref.weightUpdateFactor
    winRateWeight := cfg.pref.winRateWeight
    scoreWeight := cfg.pref.scoreWeight
    defaultWeight := cfg.pref.defaultWeight
    minWeight := cfg.pref.minWeight
    maxWeight := cfg.pref.maxWeight
    modelSelectionCount := ks.foldl (fun m k => dset m k 0) []
    modelWinRate := ks.foldl (fun m k => dset m k 0.5) []
    modelAvgScore := ks.foldl (fun m k => dset m k 0.5) []
    modelWeights := ks.foldl (fun m k => dset m k cfg.pref.defaultWeight) []
    modelPerformanceCache := [] }

/-! ## PreferenceOptimizer: query-driven scoring -/

/-- Format-requirement flags as produced by
`ResponseOptimizer._detect_format_requirements`. -/
structure FormatRequirements where
  requiresList : Bool
  requiresStepByStep : Bool
  requiresExamples : Bool
  requiresSummary : Bool
  requiresComparison : Bool
  requiresProsCons : Bool
  requiresTable : Bool
  requiresDiagram : Bool

/-- The query-analysis record built by `ResponseOptimizer.analyze_query`
and consumed by `PreferenceOptimizer` via dict lookups. -/
structure QueryAnalysis where
  complexity : ℚ
  domain : String
  topics : List String
  queryType : String
  formatRequirements : FormatRequirements
  requiresCode : Bool
  requiresReasoning : Bool
  requiresCreativity : Bool
  languages : List String
  sentiment : String
  urgency : String

/-- The sequence of dict assignments performed by
`_determine_required_strengths` after the 0.1-default initialization,
in program order (later writes overwrite earlier ones, as in Python). -/
def requiredUpdates (qa : QueryAnalysis) : List (String × ℚ) :=
  (if qa.requiresCode then
    [("programming", 0.9), ("algorithms", 0.7), ("technical_explanation", 0.6)] else []) ++
  (if qa.requiresReasoning then
    [("reasoning", 0.8), ("critical_thinking", 0.7), ("analysis", 0.7), ("evaluation", 0.6)]
   else []) ++
  (if qa.requiresCreativity then [("creative", 0.9)] else []) ++
  (if qa.complexity > 7 then
    [("comprehensive", 0.8), ("thorough", 0.7), ("balanced", 0.6)]
   else if qa.complexity < 3 then [("conciseness", 0.8), ("clarity", 0.7)] else []) ++
  (if qa.queryType = "how_to" then [("technical_explanation", 0.7), ("clarity", 0.7)]
   else if qa.queryType = "comparison" then [("balanced", 0.8), ("analysis", 0.7)]
   else if qa.queryType = "what_is" then [("general_knowledge", 0.7), ("clarity", 0.6)]
   else if qa.queryType = "opinion" then [("critical_thinking", 0.8), ("evaluation", 0.7)]
   else if qa.queryType = "list" then [("comprehensive", 0.7), ("clarity", 0.6)] else []) ++
  (if qa.formatRequirements.requiresStepByStep then [("clarity", 0.8)] else []) ++
  (if qa.formatRequirements.requiresExamples then [("technical_explanation", 0.7)] else []) ++
  (if qa.formatRequirements.requiresComparison then
    [("balanced", 0.8), ("analysis", 0.7)] else []) ++
  (if qa.domain = "technology" then [("technical_explanation", 0.8), ("programming", 0.7)]
   else if qa.domain = "science" then [("analysis", 0.8), ("reasoning", 0.7)]
   else if qa.domain = "business" then [("analysis", 0.7), ("balanced", 0.7)]
   else if qa.domain = "arts" then [("creative", 0.8)] else [])

/-- `PreferenceOptimizer._determine_required_strengths`. -/
def determineRequiredStrengths (qa : QueryAnalysis) : List (String × ℚ) :=
  (requiredUpdates qa).foldl (fun m p => dset m p.1 p.2)
    (strengthCategories.map (fun c => (c, 0.1)))

/-- `PreferenceOptimizer._calculate_model_score`: importance-weighted
mean over the categories with importance above 0.1, with the unweighted
mean of all strengths as fallback when nothing is prioritized. -/
def calculateModelScore (modelStrengths requiredStrengths : List (String × ℚ)) : ℚ :=
  let considered := requiredStrengths.filter (fun p => p.2 > 0.1)
  let score := (considered.map (fun p => dgetD modelStrengths p.1 0.5 * p.2)).sum
  let totalWeight := (considered.map (fun p => p.2)).sum
  if totalWeight = 0 then
    if modelStrengths.isEmpty then 0.5
    else (modelStrengths.map (fun p => p.2)).sum / (modelStrengths.length : ℚ)
  else score / totalWeight

/-- `PreferenceOptimizer.select_best_model`.  The input list is
`Option` because the Python parameter defaults to `None`; an empty list
is falsy in Python and therefore falls through to the configured model
list, exactly like `None`.  The argmax keeps the first of equal maxima,
matching Python `max` over dict items in insertion order.  Returns the
chosen name (or `none`) together with the updated state (the winner has
its `selection_count` incremented). -/
def selectBestModel (st : OptState) (qa : QueryAnalysis)
    (availableModels : Option (List ModelConfig)) : Option String × OptState :=
  let availFalsy := match availableModels with
    | none => true
    | some l => l.isEmpty
  if availFalsy && st.modelStrengths.isEmpty then (none, st)
  else
    let modelList := match availableModels with
      | some l => if l.isEmpty then st.modelsConfig else l
      | none => st.modelsConfig
    let modelNames := ((modelList.map (fun m => m.name)).filter (fun n => n ≠ "")).filter
      (fun n => dmem st.modelStrengths n)
    if modelNames.isEmpty then (none, st)
    else
      let required := determineRequiredStrengths qa
      let modelScores := modelNames.map (fun n =>
        (n, calculateModelScore (dgetD st.modelStrengths n []) required *
            dgetD st.modelWeights n st.defaultWeight))
      match modelScores with
      | [] => (modelNames.head?, st)
      | p :: rest =>
        let best := (rest.foldl (fun b q => if q.2 > b.2 then q else b) p).1
        let c := dgetD st.modelSelectionCount best 0
        (some best,
         { st with modelSelectionCount := dset st.modelSelectionCount best (c + 1) })

/-! ## PreferenceOptimizer: feedback-driven weight updates -/

/-- `PreferenceOptimizer._update_win_rate`: adaptive EMA with decay
`min(100, n+1) / (min(100, n+1) + 10)`. -/
def updateWinRate (st : OptState) (model : String) (isWin : Bool) : OptState :=
  let st :=
    if dmem st.modelWinRate model then st
    else { st with
            modelWinRate := dset st.modelWinRate model 0.5
            modelSelectionCount := dset st.modelSelectionCount model 0 }
  let currentRate := dgetD st.modelWinRate model 0.5
  let count := dgetD st.modelSelectionCount model 0
  let newCount := count + 1
  let decayFactor : ℚ := ((min 100 newCount : Nat) : ℚ) / (((min 100 newCount : Nat) : ℚ) + 10)
  let winValue : ℚ := if isWin then 1.0 else 0.0
  let newRate := currentRate * decayFactor + winValue * (1 - decayFactor)
  { st with
      modelWinRate := dset st.modelWinRate model newRate
      modelSelectionCount := dset st.modelSelectionCount model newCount }

/-- The stop-word set of `PreferenceOptimizer._extract_keywords`. -/
def stopWords : List String :=
  ["是", "和", "的", "为", "在", "一个", "一些", "那些",
   "关于", "与", "有", "被", "不", "像", "从", "到",
   "我", "你", "我们", "他们", "自己", "这个", "当", "做", "为了"]

/-- `PreferenceOptimizer._extract_keywords`. -/
def extractKeywords (query : String) : List String :=
  (pySplit (pyLower query)).filter
    (fun w => ¬ stopWords.contains w ∧ w.length > 2)

/-- `PreferenceOptimizer._infer_query_type` (note: distinct from the
ResponseOptimizer variant; the source keyword lists contain duplicated
entries, kept here verbatim). -/
def inferQueryTypePO (query : String) : String :=
  let ql := pyLower query
  if ["how", "how", "way"].any (fun q => strContainsB ql q) then "how_to"
  else if ["why", "why", "reason"].any (fun q => strContainsB ql q) then "why"
  else if ["what", "definition", "explanation"].any (fun q => strContainsB ql q) then "what_is"
  else if ["compare", "different", "same"].any (fun q => strContainsB ql q) then "comparison"
  else if ["example", "illustration"].any (fun q => strContainsB ql q) then "example"
  else if ["list", "list", "types"].any (fun q => strContainsB ql q) then "list"
  else if ["review", "comment", "opinion"].any (fun q => strContainsB ql q) then "opinion"
  else if strContainsB query "?" then "question"
  else "statement"

/-- One step of the `_update_performance_cache` rolling average for one
cache key (always succeeds: the divisor is `count + 1 ≥ 1`). -/
def bumpCacheEntry (st : OptState) (key model : String) (fs : ℚ) : OptState :=
  let sub := dgetD st.modelPerformanceCache key []
  let cur := dgetD sub model (0.5, 0)
  let newScore := (cur.1 * (cur.2 : ℚ) + fs) / ((cur.2 : ℚ) + 1)
  { st with
      modelPerformanceCache :=
        dset st.modelPerformanceCache key (dset sub model (newScore, cur.2 + 1)) }

/-- `PreferenceOptimizer._update_performance_cache`. -/
def updatePerformanceCache (st : OptState) (query model : String)
    (feedbackScore : Option ℚ) : OptState :=
  match feedbackScore with
  | none => st
  | some fs =>
    let st := (extractKeywords query).foldl (fun s kw => bumpCacheEntry s kw model fs) st
    bumpCacheEntry st ("type:" ++ inferQueryTypePO query) model fs

/-- Tail of `update_weights_from_feedback` (source lines 201-221): blend
win rate and average score, adjust and clamp the weight, then update the
performance cache. -/
def updateWeightsTail (st : OptState) (query selected : String)
    (feedbackScore : Option ℚ) : OptState :=
  let winRate := dgetD st.modelWinRate selected 0.5
  let avgScore := dgetD st.modelAvgScore selected 0.5
  let performanceScore := winRate * st.winRateWeight + avgScore * st.scoreWeight
  let currentWeight := dgetD st.modelWeights selected st.defaultWeight
  let adjustment := (performanceScore - 0.5) * st.weightUpdateFactor
  let newWeight := max st.minWeight (min st.maxWeight (currentWeight + adjustment))
  let st := { st with modelWeights := dset st.modelWeights selected newWeight }
  updatePerformanceCache st query selected feedbackScore

/-- `PreferenceOptimizer.update_weights_from_feedback`.  The Bool output
is `false` exactly when the Python method raises `ZeroDivisionError`:
the average-score update divides by `selection_count`, which is 0 for a
model that has never gone through `_update_win_rate` in this call or
`select_best_model` before it.  The returned state is the object state
at that point (the win-rate mutations already performed are kept, as in
Python, where the exception propagates after partial mutation). -/
def updateWeightsFromFeedback (st : OptState) (query : String)
    (responses : List (String × String)) (selected : String)
    (feedbackScore : Option ℚ) : OptState × Bool :=
  if selected = "" ∨ ¬ dmem st.modelWeights selected then (st, true)
  else
    let participating := dkeys responses
    let st :=
      if participating.length > 1 ∧ participating.contains selected then
        participating.foldl (fun s m => updateWinRate s m (m == selected)) st
      else st
    match feedbackScore with
    | some fs =>
      let currentAvg := dgetD st.modelAvgScore selected 0.5
      let count := dgetD st.modelSelectionCount selected 1
      if count = 0 then (st, false)
      else
        let newAvg := (currentAvg * 0.9 * (count : ℚ) + fs * 0.1 * (count : ℚ)) / (count : ℚ)
        let st := { st with modelAvgScore := dset st.modelAvgScore selected newAvg }
        (updateWeightsTail st query selected feedbackScore, true)
    | none => (updateWeightsTail st query selected none, true)

/-- One recorded `update_weights_from_feedback` invocation. -/
structure FeedbackCall where
  query : String
  responses : List (String × String)
  selected : String
  score : Option ℚ

/-- Run a sequence of feedback updates from the freshly initialized
optimizer, keeping the partially-mutated state when a call raises (the
Python object survives the exception). -/
def applyFeedbackCalls (cfg : OptConfig) (calls : List FeedbackCall) : OptState :=
  calls.foldl
    (fun st c => (updateWeightsFromFeedback st c.query c.responses c.selected c.score).1)
    (initialState cfg)

/-! ## ResponseOptimizer: query analysis

Mirrors `src/optimization/response_optimizer.py`. -/

/-- The `complex_indicators` keyword list of `_calculate_complexity`. -/
def complexIndicators : List String :=
  ["why", "explain", "analyze", "compare", "evaluate",
   "cause", "consequence", "impact", "strategy", "comprehensive solution"]

/-- `ResponseOptimizer._calculate_complexity`: the length/comma/question
part is capped at 5.0 first, then each matched complexity indicator adds
0.5, and the total is capped at 10.0. -/
def calculateComplexity (query : String) : ℚ :=
  let complexity : ℚ :=
    min 5.0 ((query.length : ℚ) / 100 +
      (countChar query ',' : ℚ) * 0.1 + (countChar query '?' : ℚ) * 0.3)
  let complexity := complexIndicators.foldl
    (fun c ind => if strContainsB (pyLower query) ind then c + 0.5 else c) complexity
  min 10.0 complexity

/-- The domain keyword table of `_identify_domain_and_topics` (verbatim;
note that the keyword "AI" is uppercase and is matched against the
lowercased query, so it can never hit). -/
def domainKeywords : List (String × List String) :=
  [("technology", ["computer", "software", "technology", "programming", "code", "AI", "application"]),
   ("business", ["business", "marketing", "finance", "management", "strategy", "investment"]),
   ("science", ["science", "physics", "chemistry", "biology", "mathematics", "research"]),
   ("health", ["health", "medical", "disease", "medicine", "treatment", "nutrition"]),
   ("education", ["education", "learning", "school", "university", "knowledge", "teaching"]),
   ("arts", ["art", "music", "film", "literature", "design", "creativity"]),
   ("lifestyle", ["lifestyle", "travel", "cuisine", "fashion", "sports"])]

/-- Number of keyword hits of one domain in the lowercased query. -/
def domainScore (ql : String) (kws : List String) : Nat :=
  (kws.filter (fun k => strContainsB ql k)).length

/-- `ResponseOptimizer._identify_domain_and_topics`: the first domain
with the highest hit count wins (Python `max` over the dict in insertion
order); a zero top score falls back to "general"; all hit keywords are
collected as topics in table order without duplicates. -/
def identifyDomainAndTopics (query : String) : String × List String :=
  let ql := pyLower query
  let scores := domainKeywords.map (fun p => (p.1, domainScore ql p.2))
  let topics := domainKeywords.foldl
    (fun acc p => p.2.foldl
      (fun acc2 k => if strContainsB ql k ∧ ¬ acc2.contains k then acc2 ++ [k] else acc2) acc)
    []
  match scores with
  | [] => ("general", topics)
  | p :: rest =>
    let best := rest.foldl (fun b q => if q.2 > b.2 then q else b) p
    (if best.2 = 0 then "general" else best.1, topics)

/-- `ResponseOptimizer._determine_query_type` (first matching rule
wins). -/
def determineQueryType (query : String) : String :=
  let ql := pyLower query
  if ["how to", "how do", "way to"].any (fun q => strContainsB ql q) then "how_to"
  else if ["why", "reason"].any (fun q => strContainsB ql q) then "why"
  else if ["what is", "definition", "explain"].any (fun q => strContainsB ql q) then "what_is"
  else if ["compare", "difference", "similarity"].any (fun q => strContainsB ql q) then "comparison"
  else if ["example", "illustrate"].any (fun q => strContainsB ql q) then "example"
  else if ["list", "enumeration", "types"].any (fun q => strContainsB ql q) then "list"
  else if ["evaluate", "opinion", "comment"].any (fun q => strContainsB ql q) then "opinion"
  else if ["predict", "future", "will"].any (fun q => strContainsB ql q) then "prediction"
  else if strContainsB query "?" then "question"
  else "statement"

/-- `ResponseOptimizer._detect_format_requirements`. -/
def detectFormatRequirements (query : String) : FormatRequirements :=
  let ql := pyLower query
  { requiresList := ["list", "enumeration", "points"].any (fun k => strContainsB ql k)
    requiresStepByStep := ["step by step", "detailed", "guide"].any (fun k => strContainsB ql k)
    requiresExamples := ["example", "illustrate", "sample"].any (fun k => strContainsB ql k)
    requiresSummary := ["summary", "overview", "brief"].any (fun k => strContainsB ql k)
    requiresComparison := ["compare", "contrast", "difference"].any (fun k => strContainsB ql k)
    requiresProsCons := ["advantage", "disadvantage", "benefit", "limitation"].any (fun k => strContainsB ql k)
    requiresTable := ["table", "chart"].any (fun k => strContainsB ql k)
    requiresDiagram := ["diagram", "chart", "figure"].any (fun k => strContainsB ql k) }

/-- `ResponseOptimizer._requires_code`. -/
def requiresCodeB (query : String) : Bool :=
  ["code", "programming", "function", "class", "implement",
   "algorithm", "script", "module", "debug", "fix", "error"].any
    (fun k => strContainsB (pyLower query) k)

/-- `ResponseOptimizer._requires_reasoning`. -/
def requiresReasoningB (query : String) : Bool :=
  ["why", "reason", "explain", "analyze",
   "evaluate", "opinion", "conclusion", "inference"].any
    (fun k => strContainsB (pyLower query) k)

/-- `ResponseOptimizer._requires_creativity`. -/
def requiresCreativityB (query : String) : Bool :=
  ["creative", "idea", "design", "imagine", "write",
   "compose", "story", "fiction", "art", "unique"].any
    (fun k => strContainsB (pyLower query) k)

/-- `ResponseOptimizer._detect_languages`: CJK Unified Ideographs give
"chinese", ASCII letters give "english", the empty result falls back to
["unknown"]. -/
def detectLanguages (query : String) : List String :=
  let hasChinese := query.toList.any (fun c => 0x4e00 ≤ c.toNat ∧ c.toNat ≤ 0x9fff)
  let hasEnglish := query.toList.any
    (fun c => (0x41 ≤ c.toNat ∧ c.toNat ≤ 0x5a) ∨ (0x61 ≤ c.toNat ∧ c.toNat ≤ 0x7a))
  let langs := (if hasChinese then ["chinese"] else []) ++
    (if hasEnglish then ["english"] else [])
  if langs.isEmpty then ["unknown"] else langs

/-- `ResponseOptimizer._analyze_sentiment`. -/
def analyzeSentiment (query : String) : String :=
  let ql := pyLower query
  let pos := (["good", "great", "excellent", "like", "happy", "satisfied"].filter
    (fun w => strContainsB ql w)).length
  let neg := (["bad", "poor", "sad", "disappointed", "uncomfortable", "dislike"].filter
    (fun w => strContainsB ql w)).length
  if pos > neg then "positive"
  else if neg > pos then "negative"
  else "neutral"

/-- `ResponseOptimizer._detect_urgency`. -/
def detectUrgency (query : String) : String :=
  if ["urgent", "immediate", "quick", "soon", "as soon as possible"].any
      (fun k => strContainsB (pyLower query) k) then "high"
  else "normal"

/-- The pure computation inside `ResponseOptimizer.analyze_query` (the
aggregation of all analysis helpers, before the cache insert). -/
def analyzeQueryPure (query : String) : QueryAnalysis :=
  let dt := identifyDomainAndTopics query
  { complexity := calculateComplexity query
    domain := dt.1
    topics := dt.2
    queryType := determineQueryType query
    formatRequirements := detectFormatRequirements query
    requiresCode := requiresCodeB query
    requiresReasoning := requiresReasoningB query
    requiresCreativity := requiresCreativityB query
    languages := detectLanguages query
    sentiment := analyzeSentiment query
    urgency := detectUrgency query }

/-! ## ResponseOptimizer: templates and prompt composition -/

/-- A prompt template as loaded from configuration.  The `dict.get`
defaults of the source (`domains`/`use_cases` default `[]`, `template`
defaults `"{query}"`, `complexity` defaults `"medium"`) are applied when
the record is built. -/
structure PromptTemplate where
  name : String
  template : String
  domains : List String
  useCases : List String
  complexity : String

/-- The fallback template returned by `_select_best_template` when no
templates are configured. -/
def defaultTemplate : PromptTemplate :=
  { name := "default"
    template := "{query}"
    domains := []
    useCases := ["general"]
    complexity := "medium" }

/-- Mutable state of a `ResponseOptimizer` instance. -/
structure RespOptState where
  promptTemplates : List PromptTemplate
  templateSelectionStrategy : String
  dynamicInstructionTuning : Bool
  queryAnalysisCache : List (String × QueryAnalysis)
  templatePerformanceHistory : List (String × (ℚ × Nat))

/-- `ResponseOptimizer.analyze_query` with its cache (a hit returns the
cached record, a miss computes and caches it). -/
def analyzeQueryRO (st : RespOptState) (query : String) : QueryAnalysis × RespOptState :=
  match dget? st.queryAnalysisCache query with
  | some a => (a, st)
  | none =>
    let a := analyzeQueryPure query
    (a, { st with queryAnalysisCache := dset st.queryAnalysisCache query a })

/-- The match score of `_select_best_match_template` for one template. -/
def templateMatchScore (qa : QueryAnalysis) (t : PromptTemplate) : Nat :=
  let domainPart : Nat :=
    if t.domains.contains qa.domain then 3
    else if t.domains.contains "general" then 1
    else 0
  let useCasePart : Nat := t.useCases.foldl
    (fun s uc =>
      let s := if uc == qa.queryType then s + 2 else s
      let s := if uc == "code" && qa.requiresCode then s + 2 else s
      let s := if uc == "reasoning" && qa.requiresReasoning then s + 2 else s
      if uc == "creative" && qa.requiresCreativity then s + 2 else s)
    0
  let complexityPart : Nat :=
    if (t.complexity = "high" ∧ qa.complexity > 7) ∨
       (t.complexity = "medium" ∧ 3 ≤ qa.complexity ∧ qa.complexity ≤ 7) ∨
       (t.complexity = "low" ∧ qa.complexity < 3) then 2
    else 0
  domainPart + useCasePart + complexityPart

/-- `ResponseOptimizer._select_best_match_template` (first of equal
maxima wins, mirroring Python `max`). -/
def selectBestMatchTemplate (st : RespOptState) (qa : QueryAnalysis) : PromptTemplate :=
  match st.promptTemplates.map (fun t => (t, templateMatchScore qa t)) with
  | [] => st.promptTemplates.headD defaultTemplate
  | p :: rest => (rest.foldl (fun b q => if q.2 > b.2 then q else b) p).1

/-- `ResponseOptimizer._select_performance_based_template`. -/
def selectPerformanceBasedTemplate (st : RespOptState) (qa : QueryAnalysis) : PromptTemplate :=
  let matching := st.promptTemplates.filter
    (fun t => t.domains.contains qa.domain || t.domains.contains "general")
  let matching := if matching.isEmpty then st.promptTemplates else matching
  match matching.map
      (fun t => (t, (dgetD st.templatePerformanceHistory t.name (0.5, 0)).1)) with
  | [] => matching.headD defaultTemplate
  | p :: rest => (rest.foldl (fun b q => if q.2 > b.2 then q else b) p).1

/-- `ResponseOptimizer._select_best_template`. -/
def selectBestTemplate (st : RespOptState) (qa : QueryAnalysis) : PromptTemplate :=
  if st.promptTemplates.isEmpty then defaultTemplate
  else if st.templateSelectionStrategy = "best_match" then selectBestMatchTemplate st qa
  else if st.templateSelectionStrategy = "performance_based" then
    selectPerformanceBasedTemplate st qa
  else selectBestMatchTemplate st qa

/-- Python `sep.join(xs)`. -/
def joinSep (sep : String) : List String → String
  | [] => ""
  | x :: xs => xs.foldl (fun acc y => acc ++ sep ++ y) x

/-- `ResponseOptimizer._format_requirements_to_string` (the flags are
visited in dict insertion order). -/
def formatRequirementsToString (fr : FormatRequirements) : String :=
  joinSep " "
    ((if fr.requiresList then ["Present the results in a structured list format."] else []) ++
     (if fr.requiresStepByStep then ["Provide detailed step-by-step instructions."] else []) ++
     (if fr.requiresExamples then ["Include specific examples to illustrate."] else []) ++
     (if fr.requiresSummary then ["Include a brief summary of key points."] else []) ++
     (if fr.requiresComparison then ["Clearly compare different aspects."] else []) ++
     (if fr.requiresProsCons then ["List pros and cons."] else []) ++
     (if fr.requiresTable then ["Present data in a table format if applicable."] else []) ++
     (if fr.requiresDiagram then ["Describe using diagrams or charts if possible."] else []))

/-- `ResponseOptimizer._generate_additional_instructions`. -/
def generateAdditionalInstructions (qa : QueryAnalysis) : String :=
  joinSep " "
    ((if qa.complexity > 7 then
        ["Analyze the issue comprehensively, considering multiple aspects and providing in-depth analysis."]
      else if qa.complexity < 3 then
        ["Provide concise, clear, and easy-to-understand answers."]
      else []) ++
     (if qa.requiresCode then
        ["Provide clear, commented code adhering to clean code principles."] else []) ++
     (if qa.requiresReasoning then
        ["Explain the logic and reasoning in detail, providing well-founded arguments."] else []) ++
     (if qa.requiresCreativity then
        ["Demonstrate creativity, originality, and out-of-the-box thinking."] else []) ++
     (if qa.languages.contains "vietnamese" then
        ["Respond in Vietnamese, using appropriate terminology and natural language style."] else []) ++
     (if qa.urgency = "high" then
        ["Prioritize providing essential information and quick solutions."] else []))

/-- The replacement table of `_optimize_prompt_from_template` (the
`str()` rendering of the complexity score is modelled by the rational
printer; no verified property depends on the textual rendering). -/
def replacementsFor (query : String) (qa : QueryAnalysis) : List (String × String) :=
  [("{query}", query),
   ("{domain}", qa.domain),
   ("{complexity}", toString qa.complexity),
   ("{query_type}", qa.queryType),
   ("{topics}", joinSep ", " qa.topics),
   ("{requires_code}", if qa.requiresCode then "true" else "false"),
   ("{requires_reasoning}", if qa.requiresReasoning then "true" else "false"),
   ("{requires_creativity}", if qa.requiresCreativity then "true" else "false"),
   ("{format_requirements}", formatRequirementsToString qa.formatRequirements),
   ("{sentiment}", qa.sentiment),
   ("{urgency}", qa.urgency),
   ("{languages}", joinSep ", " qa.languages)]

/-- `ResponseOptimizer._optimize_prompt_from_template`. -/
def optimizePromptFromTemplate (st : RespOptState) (query : String)
    (qa : QueryAnalysis) (t : PromptTemplate) : String :=
  let base := (replacementsFor query qa).foldl (fun s p => s.replace p.1 p.2) t.template
  if st.dynamicInstructionTuning then
    let add := generateAdditionalInstructions qa
    if add ≠ "" then base ++ "\n\n" ++ add else base
  else base

/-- Result record of `ResponseOptimizer.optimize_query` (`analysis` is
`none` on the logged error path, which returns an empty dict). -/
structure OptimizeQueryResult where
  analysis : Option QueryAnalysis
  templateUsed : String
  optimizedPrompt : String

/-- `ResponseOptimizer.optimize_query` (the embedded computation is
total, so the logged `except` path of the source is unreachable). -/
def optimizeQueryRO (st : RespOptState) (query : String) :
    OptimizeQueryResult × RespOptState :=
  let p := analyzeQueryRO st query
  let t := selectBestTemplate p.2 p.1
  ({ analysis := some p.1
     templateUsed := t.name
     optimizedPrompt := optimizePromptFromTemplate p.2 query p.1 t }, p.2)

/-- `ResponseOptimizer.update_template_performance`: running average
over `count + 1` samples (never divides by zero). -/
def updateTemplatePerformance (st : RespOptState) (templateName : String)
    (feedbackScore : ℚ) : RespOptState :=
  let cur := dgetD st.templatePerformanceHistory templateName (0.5, 0)
  let updated := (cur.1 * (cur.2 : ℚ) + feedbackScore) / ((cur.2 : ℚ) + 1)
  { st with
      templatePerformanceHistory :=
        dset st.templatePerformanceHistory templateName (updated, cur.2 + 1) }

/-- Specification-side complexity formula, written exactly as the spec
states it (`min(10, len/100 + 0.1*commas + 0.3*questions +
0.5*matched_keywords)`), for comparison against `calculateComplexity`
which is translated from the code. -/
def specComplexity (query : String) : ℚ :=
  min 10 ((query.length : ℚ) / 100 +
    (countChar query ',' : ℚ) * 0.1 +
    (countChar query '?' : ℚ) * 0.3 +
    ((complexIndicators.filter (fun i => strContainsB (pyLower query) i)).length : ℚ) * 0.5)

/-! ## FeedbackStore: logical table contents

Mirrors `src/optimization/feedback_store.py`.  The SQLite database is
modelled by its logical contents: a list of feedback rows and a list of
comparison rows, each keyed by a primary-key id. -/

/-- A row of the `feedback` table (current schema). -/
structure FeedbackRow where
  id : String
  timestamp : String
  conversationId : String
  query : String
  responses : List (String × String)
  selectedResponse : String
  feedbackScore : Option ℚ
  feedbackText : Option String

/-- A row of the `comparisons` table. -/
structure ComparisonRow where
  id : String
  timestamp : String
  conversationId : String
  query : String
  chosen : String
  rejected : String
  chosenModel : String
  rejectedModel : String

/-- Logical contents of the store (the `stats` table plays no role in
any verified property and is omitted). -/
structure StoreState where
  feedback : List FeedbackRow
  comparisons : List ComparisonRow

/-- `INSERT OR REPLACE` on a primary key: drop any row with the same id,
append the new row. -/
def insertOrReplace {α : Type} (getId : α → String) (rows : List α) (r : α) : List α :=
  rows.filter (fun x => getId x ≠ getId r) ++ [r]

/-- `FeedbackStore.save_feedback` on a healthy schema: rows without an
id are rejected (`return None`), otherwise the row is upserted and its
id returned. -/
def storeSaveFeedback (s : StoreState) (r : FeedbackRow) : StoreState × Option String :=
  if r.id = "" then (s, none)
  else ({ s with feedback := insertOrReplace (fun x => x.id) s.feedback r }, some r.id)

/-- `FeedbackStore.save_comparison` on a healthy schema. -/
def storeSaveComparison (s : StoreState) (r : ComparisonRow) : StoreState × Option String :=
  if r.id = "" then (s, none)
  else ({ s with comparisons := insertOrReplace (fun x => x.id) s.comparisons r }, some r.id)

/-- Insert an element into a list sorted descending by a string key. -/
def insertDescBy {α : Type} (key : α → String) (x : α) : List α → List α
  | [] => [x]
  | y :: ys => if strLeB (key y) (key x) then x :: y :: ys else y :: insertDescBy key x ys

/-- Insertion sort, descending by a string key: models SQLite
`ORDER BY key DESC` on a TEXT column. -/
def sortDescBy {α : Type} (key : α → String) : List α → List α
  | [] => []
  | x :: xs => insertDescBy key x (sortDescBy key xs)

/-- A record returned by `get_all_feedback`: either a feedback dict or a
comparison dict.  A comparison dict carries the extra entry
`type = "pairwise_comparison"`; a feedback dict has no `type` key. -/
inductive FeedbackEntry where
  | fb (r : FeedbackRow) : FeedbackEntry
  | comp (r : ComparisonRow) : FeedbackEntry

/-- The timestamp of an output record. -/
def entryTimestamp : FeedbackEntry → String
  | .fb r => r.timestamp
  | .comp r => r.timestamp

/-- The `type` entry of an output record (`none` models a missing key). -/
def entryType : FeedbackEntry → Option String
  | .fb _ => none
  | .comp _ => some "pairwise_comparison"

/-- `FeedbackStore.get_all_feedback`: all feedback rows ordered newest
first, followed by all comparison rows ordered newest first, the latter
tagged `type = "pairwise_comparison"`. -/
def getAllFeedback (s : StoreState) : List FeedbackEntry :=
  (sortDescBy (fun r => r.timestamp) s.feedback).map FeedbackEntry.fb ++
  (sortDescBy (fun r => r.timestamp) s.comparisons).map FeedbackEntry.comp

/-- Bool-valued check that adjacent elements are ordered descending by
a string key. -/
def sortedDescB {α : Type} (key : α → String) : List α → Bool
  | [] => true
  | [_] => true
  | x :: y :: rest => strLeB (key y) (key x) && sortedDescB key (y :: rest)

/-- Bool-valued check that a list of output records is ordered newest
first across both record kinds. -/
def sortedNewestFirst (l : List FeedbackEntry) : Bool :=
  sortedDescB entryTimestamp l

/-! ## FeedbackStore: schema self-healing (save path)

Model of `save_feedback` against a `feedback` table whose schema may
lack the `conversation_id` column, together with
`_fix_database_schema`.  The `except` branch of `save_feedback` matches
the error text "no such column: conversation_id", runs the repair, and
re-enters `save_feedback` recursively — with no retry bound. -/

/-- A row as stored under a possibly-outdated schema:
`conversationId = none` when the column does not exist. -/
structure RawFeedbackRow where
  id : String
  timestamp : String
  conversationId : Option String
  query : String
  responses : List (String × String)
  selectedResponse : String
  feedbackScore : Option ℚ
  feedbackText : Option String

/-- The `feedback` table with its schema flag. -/
structure RawFeedbackTable where
  hasConversationCol : Bool
  rows : List RawFeedbackRow

/-- `FeedbackStore._fix_database_schema` restricted to the feedback
table: when the `conversation_id` column is missing, the table is
rebuilt with the current schema and the existing rows are copied with
`conversation_id = ""`.  The `ok` flag models whether the repair
transaction succeeds (`False` return on a repair error leaves the table
unchanged). -/
def fixDatabaseSchema (ok : Bool) (t : RawFeedbackTable) : RawFeedbackTable :=
  if ¬ ok then t
  else if t.hasConversationCol then t
  else { hasConversationCol := true
         rows := t.rows.map (fun r => { r with conversationId := some "" }) }

/-- Convert a current-schema feedback row for insertion into the raw
table. -/
def toRawRow (r : FeedbackRow) : RawFeedbackRow :=
  { id := r.id
    timestamp := r.timestamp
    conversationId := some r.conversationId
    query := r.query
    responses := r.responses
    selectedResponse := r.selectedResponse
    feedbackScore := r.feedbackScore
    feedbackText := r.feedbackText }

/-- `FeedbackStore.save_feedback` with the self-healing retry made
fuel-indexed: each unit of fuel is one attempt to run the INSERT.  On a
missing-column error the store runs `_fix_database_schema` (which
repairs the schema only when `fixOk` is true) and re-enters itself,
exactly as the source recurses.  `none` means the fuel ran out, i.e.
the Python call is still retrying after that many attempts. -/
def saveFeedbackFuel (fixOk : Bool) : Nat → RawFeedbackTable → FeedbackRow →
    Option (RawFeedbackTable × Option String)
  | 0, _, _ => none
  | n + 1, t, r =>
    if r.id = "" then some (t, none)
    else if t.hasConversationCol then
      some ({ t with rows := insertOrReplace (fun x => x.id) t.rows (toRawRow r) }, some r.id)
    else
      saveFeedbackFuel fixOk n (fixDatabaseSchema fixOk t) r

/-! ## FeedbackCollector

Mirrors `src/optimization/feedback_collector.py`.  Generated ids and
timestamps (`time.time()`, `random.randint`, `datetime.now()`) are
passed in as oracle parameters. -/

/-- Insert an element into a list sorted ascending by a string key
(stable, equal keys keep their original order). -/
def insertAscBy {α : Type} (key : α → String) (x : α) : List α → List α
  | [] => [x]
  | y :: ys => if strLeB (key y) (key x) then y :: insertAscBy key x ys else x :: y :: ys

/-- Stable insertion sort, ascending by a string key: models Python
`sorted(..., key=...)`. -/
def sortAscBy {α : Type} (key : α → String) : List α → List α
  | [] => []
  | x :: xs => insertAscBy key x (sortAscBy key xs)

/-- Mutable state of a `FeedbackCollector` instance. -/
structure CollectorState where
  enabled : Bool
  collectionProbability : ℚ
  collectComparisons : Bool
  feedbackCacheSize : Nat
  feedbackCache : List (String × FeedbackRow)
  requestedFeedbackConversations : List String

/-- `FeedbackCollector._update_feedback_cache`: store the record, and
once the cache exceeds its configured size drop the 100 entries with the
oldest timestamps. -/
def updateFeedbackCache (c : CollectorState) (fid : String) (rec : FeedbackRow) :
    CollectorState :=
  let cache := dset c.feedbackCache fid rec
  if cache.length > c.feedbackCacheSize then
    let oldest := ((sortAscBy (fun p => p.2.timestamp) cache).map (fun p => p.1)).take 100
    { c with feedbackCache := cache.filter (fun p => ¬ oldest.contains p.1) }
  else { c with feedbackCache := cache }

/-- `FeedbackCollector._create_pairwise_comparisons`: no records at all
when the selected model has no response or an empty one; otherwise one
record per other model with a non-empty response, in response-map order.
`compIds k` is the generated id of the k-th created record, `now` the
shared timestamp oracle. -/
def createPairwiseComparisons (conversationId query : String)
    (responses : List (String × String)) (selectedResponse : String)
    (compIds : Nat → String) (now : String) : List ComparisonRow :=
  let chosenText := dgetD responses selectedResponse ""
  if chosenText = "" then []
  else
    let others := responses.filter (fun p => ¬ (p.1 == selectedResponse) ∧ p.2 ≠ "")
    others.enum.map (fun pi =>
      { id := compIds pi.1
        timestamp := now
        conversationId := conversationId
        query := query
        chosen := chosenText
        rejected := pi.2.2
        chosenModel := selectedResponse
        rejectedModel := pi.2.1 })

/-- Persist a batch of comparison rows through `save_comparison`. -/
def saveComparisonList (s : StoreState) (rows : List ComparisonRow) : StoreState :=
  rows.foldl (fun acc r => (storeSaveComparison acc r).1) s

/-- `FeedbackCollector.collect_feedback`.  `newId`/`now` are the
generated feedback id and timestamp.  Returns the feedback id (or
`none` when collection is disabled), the collector state and the store
contents.  (A store-level save failure would make Python cache the
record under key `None`; that unreachable-in-this-model key is encoded
as `""`.) -/
def collectFeedback (c : CollectorState) (s : StoreState) (newId now : String)
    (conversationId query : String) (responses : List (String × String))
    (selectedResponse : String) (feedbackScore : Option ℚ)
    (feedbackText : Option String) (compIds : Nat → String) :
    Option String × CollectorState × StoreState :=
  if ¬ c.enabled then (none, c, s)
  else
    let record : FeedbackRow :=
      { id := newId
        timestamp := now
        conversationId := conversationId
        query := query
        responses := responses
        selectedResponse := selectedResponse
        feedbackScore := feedbackScore
        feedbackText := feedbackText }
    let p := storeSaveFeedback s record
    let c := updateFeedbackCache c (p.2.getD "") record
    if c.collectComparisons ∧ responses.length > 1 then
      let rows := createPairwiseComparisons conversationId query responses selectedResponse
        compIds now
      (p.2, c, saveComparisonList p.1 rows)
    else (p.2, c, p.1)

/-- `FeedbackCollector.should_request_feedback`: `roll` is the oracle
outcome of `random.random() < collection_probability`. -/
def shouldRequestFeedback (c : CollectorState) (conversationId : String) (roll : Bool) :
    Bool × CollectorState :=
  if ¬ c.enabled then (false, c)
  else if c.requestedFeedbackConversations.contains conversationId then (false, c)
  else if roll then
    (true, { c with
      requestedFeedbackConversations := c.requestedFeedbackConversations ++ [conversationId] })
  else (false, c)

/-- One scalar item of the exported RLHF bundle. -/
structure RlhfFeedbackItem where
  id : String
  prompt : String
  response : Option String
  model : String
  score : Option ℚ
  feedback : Option String

/-- One preference pair of the exported RLHF bundle. -/
structure RlhfComparisonItem where
  id : String
  prompt : String
  chosen : String
  rejected : String
  chosenModel : String
  rejectedModel : String

/-- The exported RLHF bundle (`metadata.record_count` plus the two
partitions; the metadata timestamp/version strings carry no verified
content). -/
structure RlhfData where
  recordCount : Nat
  feedback : List RlhfFeedbackItem
  comparisons : List RlhfComparisonItem

/-- `FeedbackCollector._convert_to_rlhf_format`. -/
def convertToRlhfFormat (records : List FeedbackEntry) : RlhfData :=
  records.foldl
    (fun acc e =>
      match e with
      | .comp r =>
        { acc with comparisons := acc.comparisons ++
            [{ id := r.id, prompt := r.query, chosen := r.chosen, rejected := r.rejected,
               chosenModel := r.chosenModel, rejectedModel := r.rejectedModel }] }
      | .fb r =>
        { acc with feedback := acc.feedback ++
            [{ id := r.id, prompt := r.query, response := dget? r.responses r.selectedResponse,
               model := r.selectedResponse, score := r.feedbackScore,
               feedback := r.feedbackText }] })
    { recordCount := records.length, feedback := [], comparisons := [] }

/-- `FeedbackCollector.export_feedback_data`: reads all records back
from the store and serializes them.  The returned bundle models the
contents of the file written to the export directory; there is no
enablement check on this path. -/
def exportFeedbackData (s : StoreState) : RlhfData :=
  convertToRlhfFormat (getAllFeedback s)

/-! ## FeedbackOptimizationManager

Mirrors `src/optimization/manager.py`. -/

/-- State of the manager facade and its four composed components. -/
structure ManagerState where
  enabled : Bool
  store : StoreState
  opt : OptState
  collector : CollectorState
  respOpt : RespOptState

/-- Result dict of `FeedbackOptimizationManager.optimize_query`: when
disabled (or on error) the analysis is the empty dict (`none`) and the
`template_used` key is absent. -/
structure ManagerQueryResult where
  analysis : Option QueryAnalysis
  templateUsed : Option String
  optimizedPrompt : String

/-- `FeedbackOptimizationManager.optimize_query`. -/
def managerOptimizeQuery (m : ManagerState) (query : String) :
    ManagerQueryResult × ManagerState :=
  if ¬ m.enabled then
    ({ analysis := none, templateUsed := none, optimizedPrompt := query }, m)
  else
    let p := optimizeQueryRO m.respOpt query
    ({ analysis := p.1.analysis
       templateUsed := some p.1.templateUsed
       optimizedPrompt := p.1.optimizedPrompt },
     { m with respOpt := p.2 })

/-- `FeedbackOptimizationManager.select_best_model`. -/
def managerSelectBestModel (m : ManagerState) (query : String)
    (analysis : Option QueryAnalysis) (availableModels : Option (List ModelConfig)) :
    Option String × ManagerState :=
  if ¬ m.enabled then (none, m)
  else
    let pa := match analysis with
      | some a => (a, m.respOpt)
      | none => analyzeQueryRO m.respOpt query
    let am := match availableModels with
      | some l => some l
      | none => some m.opt.modelsConfig
    let p := selectBestModel m.opt pa.1 am
    (p.1, { m with respOpt := pa.2, opt := p.2 })

/-- `FeedbackOptimizationManager.process_feedback`.  When the enabled
path reaches `update_weights_from_feedback` and that call raises, the
`except` clause catches the exception and returns `False`, keeping all
mutations performed up to that point (collector cache, store rows, and
the optimizer win-rate updates). -/
def managerProcessFeedback (m : ManagerState) (conversationId query : String)
    (responses : List (String × String)) (selectedResponse : String)
    (feedbackScore : Option ℚ) (feedbackText : Option String)
    (newId now : String) (compIds : Nat → String) : Bool × ManagerState :=
  if ¬ m.enabled then (false, m)
  else
    let r := collectFeedback m.collector m.store newId now conversationId query responses
      selectedResponse feedbackScore feedbackText compIds
    match r.1 with
    | none => (false, { m with collector := r.2.1, store := r.2.2 })
    | some _ =>
      let m2 := { m with collector := r.2.1, store := r.2.2 }
      let u := updateWeightsFromFeedback m2.opt query responses selectedResponse feedbackScore
      if u.2 then
        let m3 := { m2 with opt := u.1 }
        match feedbackScore with
        | none => (true, m3)
        | some fs =>
          (true, { m3 with respOpt := updateTemplatePerformance m3.respOpt "default" fs })
      else (false, { m2 with opt := u.1 })

/-- `FeedbackOptimizationManager.export_feedback_data`: delegates to the
collector (note: no `enabled` guard on this method in the source).  The
result models the bundle written to the export file. -/
def managerExportFeedbackData (m : ManagerState) : RlhfData :=
  exportFeedbackData m.store

/-- `FeedbackStore.get_total_count`. -/
def getTotalCount (s : StoreState) : Nat :=
  s.feedback.length + s.comparisons.length

/-- `FeedbackStore.get_count_by_score`. -/
def getCountByScore (s : StoreState) (minScore maxScore : Option ℚ) : Nat :=
  (s.feedback.filter (fun r =>
    match r.feedbackScore with
    | none => false
    | some v =>
      (minScore.all (fun lo => decide (lo ≤ v))) && (maxScore.all (fun hi => decide (v ≤ hi)))
    )).length

/-- Stats dict of `FeedbackOptimizationManager.get_stats` (note: no
`enabled` guard on this method in the source; it reads the live store
and optimizer state even when disabled). -/
structure ManagerStats where
  enabled : Bool
  totalSamples : Nat
  positiveSamples : Nat
  negativeSamples : Nat
  neutralSamples : Nat
  modelPreferences : List (String × ℚ)
  templatePerformance : List (String × (ℚ × Nat))

/-- `FeedbackOptimizationManager.get_stats`. -/
def managerGetStats (m : ManagerState) : ManagerStats :=
  { enabled := m.enabled
    totalSamples := getTotalCount m.store
    positiveSamples := getCountByScore m.store (some 0.7) none
    negativeSamples := getCountByScore m.store none (some 0.3)
    neutralSamples := getCountByScore m.store (some 0.3) (some 0.7)
    modelPreferences := m.opt.modelWeights
    templatePerformance := m.respOpt.templatePerformanceHistory }

/-! ## GroupDiscussionManager

Mirrors `src/core/group_discussion.py`.  The external model-inference
provider is a parameter: `respond model prompt systemPrompt` is the
result dict of `ModelManager.get_response` (`none` models a raised
exception).  `random.choice` is the oracle `choice`. -/

/-- Static information about one known model (`role` and
`system_prompt` default to "assistant"/"" at configuration load). -/
structure ModelInfo where
  role : String
  systemPrompt : String

/-- The model manager as seen by the orchestrator. -/
structure ModelManagerEnv where
  models : List (String × ModelInfo)
  respond : String → String → String → Option (List (String × String))

/-- Configuration and memory of a `GroupDiscussionManager`. -/
structure DiscussionRound where
  round : Nat
  responses : List (String × String)

/-- One archived discussion. -/
structure DiscussionEntry where
  id : String
  query : String
  log : List DiscussionRound
  finalResponse : String

/-- Mutable state of a `GroupDiscussionManager` instance. -/
structure GroupDiscussionState where
  name : String
  systemPrompt : String
  defaultRounds : Nat
  discussions : List (String × DiscussionEntry)

/-- Outcome of `conduct_discussion`: the early-exit error dict, or the
full result dict. -/
inductive DiscussionOutcome where
  | failure (error : String) : DiscussionOutcome
  | finished (response : String) (discussionId : String) (modelsUsed : List String)
      (rounds : Nat) : DiscussionOutcome

/-- The `success` entry of the outcome dict. -/
def outcomeSuccess : DiscussionOutcome → Bool
  | .failure _ => false
  | .finished _ _ _ _ => true

/-- The `response` entry of the outcome dict (absent on failure). -/
def outcomeResponse : DiscussionOutcome → Option String
  | .failure _ => none
  | .finished r _ _ _ => some r

/-- `GroupDiscussionManager._select_participating_models` (a falsy
`specified_models` — `None` or the empty list — selects all known
models). -/
def selectParticipatingModels (mm : ModelManagerEnv) (specified : Option (List String)) :
    List String :=
  match specified with
  | some l =>
    if l.isEmpty then dkeys mm.models
    else l.filter (fun m => (dkeys mm.models).contains m)
  | none => dkeys mm.models

/-- Role lookup with the "assistant" default used in context building. -/
def roleOf (mm : ModelManagerEnv) (model : String) : String :=
  match dget? mm.models model with
  | some i => i.role
  | none => "assistant"

/-- Role lookup with the "expert" default used by the synthesis
fallback concatenation. -/
def roleOfExpert (mm : ModelManagerEnv) (model : String) : String :=
  match dget? mm.models model with
  | some i => i.role
  | none => "expert"

/-- `GroupDiscussionManager._create_expert_system_prompt`. -/
def createExpertSystemPrompt (mm : ModelManagerEnv) (modelName : String) (roundNum : Nat) :
    String :=
  match dget? mm.models modelName with
  | none => ""
  | some info =>
    if roundNum = 0 then
      info.systemPrompt ++ "\n\nYou are participating in a group discussion as a " ++
        info.role ++ " expert. Please answer the question based on your expertise. " ++
        "Focus on your strengths as a " ++ info.role ++ " expert."
    else
      info.systemPrompt ++ "\n\nYou are participating in a group discussion as a " ++
        info.role ++ " expert. Please consider opinions from other experts and provide " ++
        "additional insights from your professional perspective. " ++
        "Focus on improving the answer based on your " ++ info.role ++ " expertise."

/-- `GroupDiscussionManager._create_next_round_context`. -/
def createNextRoundContext (mm : ModelManagerEnv) (query : String)
    (roundResponses : List (String × String)) (roundNum : Nat) : String :=
  let parts :=
    ["Original question: " ++ query,
     "\nDiscussion round " ++ toString (roundNum + 1) ++
       " has completed. Here are expert opinions:"] ++
    roundResponses.foldr
      (fun p acc => ("\n--- Opinion from " ++ roleOf mm p.1 ++ " expert ---") :: p.2 :: acc)
      [] ++
    ["\n\nDiscussion round " ++ toString (roundNum + 2) ++ ":",
     "Please consider the above opinions and provide additional insights from your professional perspective.",
     "Focus on improving and clarifying points that need further elaboration."]
  joinSep "\n" parts

/-- The round loop of `conduct_discussion`: models that raise are
skipped; the context is rebuilt from the round responses for every
round except the last. -/
def discussionRounds (mm : ModelManagerEnv) (participating : List String) (query : String) :
    Nat → Nat → String → List DiscussionRound
  | 0, _, _ => []
  | remaining + 1, roundNum, context =>
    let roundResponses := participating.foldl
      (fun acc m =>
        match mm.respond m context (createExpertSystemPrompt mm m roundNum) with
        | none => acc
        | some d => dset acc m (dgetD d "response" ""))
      []
    let nextContext :=
      if remaining > 0 then createNextRoundContext mm query roundResponses roundNum
      else context
    { round := roundNum + 1, responses := roundResponses } ::
      discussionRounds mm participating query remaining (roundNum + 1) nextContext

/-- The models that produced at least one response, in first-response
order (`models_used` is a Python set; no verified property depends on
its iteration order). -/
def modelsUsedIn (log : List DiscussionRound) : List String :=
  log.foldl
    (fun acc r => r.responses.foldl
      (fun a p => if a.contains p.1 then a else a ++ [p.1]) acc)
    []

/-- The synthesis prompt built by `_synthesize_final_response`. -/
def synthesisPrompt (mm : ModelManagerEnv) (query : String)
    (lastResponses : List (String × String)) : String :=
  joinSep "\n"
    (["Question: " ++ query,
      "\nA group discussion has taken place between experts. Here are their final opinions:"] ++
     lastResponses.foldr
       (fun p acc => ("\n--- " ++ roleOf mm p.1 ++ " expert ---") :: p.2 :: acc) [] ++
     ["\nPlease synthesize the above opinions into a comprehensive and balanced answer."])

/-- `GroupDiscussionManager._select_synthesis_model`: prefer a model
with the deep_thinking role, else a random participant, else the first
known model, else the hard-coded default name. -/
def selectSynthesisModel (mm : ModelManagerEnv) (choice : List String → String)
    (participating : List String) : String :=
  match (dkeys mm.models).find?
      (fun m => match dget? mm.models m with
        | some i => i.role == "deep_thinking"
        | none => false) with
  | some m => m
  | none =>
    if ¬ participating.isEmpty then choice participating
    else
      match dkeys mm.models with
      | m :: _ => m
      | [] => "deepseek-r1:8b"

/-- The fallback concatenation of `_synthesize_final_response`: the
final-round responses labeled by role, joined by blank lines. -/
def fallbackCombined (mm : ModelManagerEnv) (lastResponses : List (String × String)) :
    String :=
  joinSep "\n\n"
    (lastResponses.map (fun p => "From " ++ roleOfExpert mm p.1 ++ " perspective:\n" ++ p.2))

/-- `GroupDiscussionManager._synthesize_final_response`. -/
def synthesizeFinalResponse (mm : ModelManagerEnv) (choice : List String → String)
    (gst : GroupDiscussionState) (query : String) (log : List DiscussionRound) : String :=
  match log.getLast? with
  | none => "Insufficient discussion data to synthesize response."
  | some last =>
    if last.responses.isEmpty then "No responses in final discussion round."
    else
      let sm := selectSynthesisModel mm choice (dkeys last.responses)
      match mm.respond sm (synthesisPrompt mm query last.responses) gst.systemPrompt with
      | some d => dgetD d "response" "Failed to synthesize response."
      | none => fallbackCombined mm last.responses

/-- The effective round count `rounds or self.default_rounds` (an
absent or zero `rounds` argument is falsy in Python). -/
def roundsValue (gst : GroupDiscussionState) (rounds : Option Nat) : Nat :=
  let r0 := rounds.getD 0
  if r0 = 0 then gst.defaultRounds else r0

/-- The discussion log a `conduct_discussion` invocation builds before
synthesis. -/
def discussionLogOf (mm : ModelManagerEnv) (gst : GroupDiscussionState)
    (query : String) (models : Option (List String)) (rounds : Option Nat) :
    List DiscussionRound :=
  discussionRounds mm (selectParticipatingModels mm models) query
    (roundsValue gst rounds) 0 query

/-- The final-round response map of a discussion log (empty when there
were no rounds). -/
def lastRoundResponses (log : List DiscussionRound) : List (String × String) :=
  (log.getLast?.map (fun d => d.responses)).getD []

/-- `GroupDiscussionManager.conduct_discussion`.  The discussion id is
caller-supplied (the source generates a time-based one when absent);
`rounds = none` or `some 0` falls back to the configured default
(`rounds or self.default_rounds`). -/
def conductDiscussion (mm : ModelManagerEnv) (choice : List String → String)
    (gst : GroupDiscussionState) (query : String) (discussionId : String)
    (models : Option (List String)) (rounds : Option Nat) :
    DiscussionOutcome × GroupDiscussionState :=
  let participating := selectParticipatingModels mm models
  if participating.isEmpty then
    (.failure "No suitable models found for discussion", gst)
  else
    let log := discussionLogOf mm gst query models rounds
    let final := synthesizeFinalResponse mm choice gst query log
    let gst2 := { gst with
      discussions := dset gst.discussions discussionId
        { id := discussionId, query := query, log := log, finalResponse := final } }
    (.finished final discussionId (modelsUsedIn log) (roundsValue gst rounds), gst2)

/-! ## Concrete fixtures for counterexamples and witnesses -/

/-- A configuration with a single model named "modelA" and no explicit
strengths. -/
def cfgA : OptConfig :=
  { models := [{ name := "modelA", strengths := [] }]
    groupDiscussion := none
    pref := defaultPrefParams }

/-- The freshly initialized optimizer for `cfgA`. -/
def stA : OptState := initialState cfgA

/-- An all-default query profile used as a test input. -/
def qaDefault : QueryAnalysis :=
  { complexity := 0
    domain := "general"
    topics := []
    queryType := "statement"
    formatRequirements :=
      { requiresList := false, requiresStepByStep := false, requiresExamples := false
        requiresSummary := false, requiresComparison := false, requiresProsCons := false
        requiresTable := false, requiresDiagram := false }
    requiresCode := false
    requiresReasoning := false
    requiresCreativity := false
    languages := ["unknown"]
    sentiment := "neutral"
    urgency := "normal" }

/-- A query of 60 commas: its length/comma part alone exceeds the inner
5.0 cap of `_calculate_complexity`. -/
def commaQuery : String := String.mk (List.replicate 60 ',')

/-- A feedback row with the lexicographically smaller timestamp "1". -/
def fbRowOld : FeedbackRow :=
  { id := "f1", timestamp := "1", conversationId := "c", query := "q"
    responses := [("modelA", "x")], selectedResponse := "modelA"
    feedbackScore := some 0.8, feedbackText := none }

/-- A comparison row with the larger timestamp "2". -/
def compRowNew : ComparisonRow :=
  { id := "p1", timestamp := "2", conversationId := "c", query := "q"
    chosen := "x", rejected := "y", chosenModel := "modelA", rejectedModel := "modelB" }

/-- A store holding one feedback row older than one comparison row. -/
def storeMixed : StoreState := { feedback := [fbRowOld], comparisons := [compRowNew] }

/-- A feedback table under the outdated schema (no `conversation_id`
column) holding one pre-existing row. -/
def rawTableCE : RawFeedbackTable :=
  { hasConversationCol := false
    rows := [{ id := "old1", timestamp := "t0", conversationId := none, query := "q0"
               responses := [], selectedResponse := "", feedbackScore := none
               feedbackText := none }] }

/-- A well-formed feedback row to be written through the self-healing
path. -/
def rowCE : FeedbackRow :=
  { id := "new1", timestamp := "t1", conversationId := "c1", query := "q1"
    responses := [("modelA", "x")], selectedResponse := "modelA"
    feedbackScore := some 0.5, feedbackText := none }

/-- A default collector state (configuration defaults, empty caches). -/
def collectorDefault : CollectorState :=
  { enabled := true
    collectionProbability := 0.3
    collectComparisons := true
    feedbackCacheSize := 1000
    feedbackCache := []
    requestedFeedbackConversations := [] }

/-- A default response-optimizer state with no templates. -/
def respOptDefault : RespOptState :=
  { promptTemplates := []
    templateSelectionStrategy := "best_match"
    dynamicInstructionTuning := true
    queryAnalysisCache := []
    templatePerformanceHistory := [] }

/-- A globally disabled manager over a non-empty store. -/
def managerDisabled : ManagerState :=
  { enabled := false
    store := storeMixed
    opt := stA
    collector := collectorDefault
    respOpt := respOptDefault }

/-- One concrete feedback call with a mid-range score. -/
def callW : FeedbackCall :=
  { query := "q"
    responses := [("modelA", "x"), ("modelB", "y")]
    selected := "modelA"
    score := some 0.5 }

/-- A model world for the group-discussion scenario: two reachable
experts plus an unreachable synthesizer with the deep_thinking role. -/
def mmCE : ModelManagerEnv :=
  { models :=
      [("expertA", { role := "analysis", systemPrompt := "sysA" }),
       ("expertB", { role := "creative", systemPrompt := "sysB" }),
       ("deep", { role := "deep_thinking", systemPrompt := "sysD" })]
    respond := fun model _ _ =>
      if model == "deep" then none else some [("response", "an answer")] }

/-- Discussion-manager state with the configured defaults. -/
def gstCE : GroupDiscussionState :=
  { name := "group_discussion"
    systemPrompt := "synthesis system prompt"
    defaultRounds := 2
    discussions := [] }

/-- A deterministic stand-in for `random.choice`. -/
def choiceCE : List String → String :=
  fun l => l.headD ""

/-- The bounds invariant of the optimizer state claimed by the spec:
weights stay within the configured band, win rates and average scores
stay within [0, 1]. -/
def OptBoundsInvariant (st : OptState) : Prop :=
  st.minWeight ≤ st.maxWeight ∧
  (∀ p ∈ st.modelWeights, st.minWeight ≤ p.2 ∧ p.2 ≤ st.maxWeight) ∧
  (∀ p ∈ st.modelWinRate, 0 ≤ p.2 ∧ p.2 ≤ 1) ∧
  (∀ p ∈ st.modelAvgScore, 0 ≤ p.2 ∧ p.2 ≤ 1)

/-! ## Helper lemmas: association-list dictionaries -/

theorem dkeys_dset_of_dmem {α : Type} {m : List (String × α)} {k : String} {v : α}
    (h : dmem m k = true) : dkeys (dset m k v) = dkeys m := by
  unfold dset dkeys
  rw [if_pos h, List.map_map]
  apply List.map_congr_left
  intro p _
  by_cases hk : p.1 == k
  · simp only [Function.comp, hk, if_pos]
    exact (eq_of_beq hk).symm
  · simp [Function.comp, hk]

theorem mem_dset {α : Type} {m : List (String × α)} {k : String} {v : α}
    {p : String × α} (h : p ∈ dset m k v) : p = (k, v) ∨ p ∈ m := by
  unfold dset at h
  by_cases hm : dmem m k
  · rw [if_pos hm] at h
    obtain ⟨q, hq, hpq⟩ := List.mem_map.mp h
    by_cases hk : q.1 == k
    · left
      rw [if_pos hk] at hpq
      exact hpq.symm
    · right
      rw [if_neg hk] at hpq
      exact hpq ▸ hq
  · rw [if_neg hm] at h
    rcases List.mem_append.mp h with h1 | h1
    · exact Or.inr h1
    · exact Or.inl (List.mem_singleton.mp h1)

theorem dgetD_prop {α : Type} {m : List (String × α)} {k : String} {d : α}
    (P : α → Prop) (hm : ∀ p ∈ m, P p.2) (hd : P d) : P (dgetD m k d) := by
  unfold dgetD dget?
  cases hfind : m.find? (fun p => p.1 == k) with
  | none => exact hd
  | some q => exact hm q (List.mem_of_find?_eq_some hfind)

theorem dmem_append {α : Type} (m m2 : List (String × α)) (k : String) :
    dmem (m ++ m2) k = (dmem m k || dmem m2 k) := by
  unfold dmem dget?
  rw [List.find?_append]
  cases m.find? (fun p => p.1 == k) <;> simp [Option.orElse]

theorem dkeys_dset_of_not_dmem {α : Type} {m : List (String × α)} {k : String} {v : α}
    (h : dmem m k = false) : dkeys (dset m k v) = dkeys m ++ [k] := by
  unfold dset dkeys
  rw [if_neg (by simp [h])]
  simp

theorem nodup_dkeys_dset {α : Type} {m : List (String × α)} {k : String} {v : α}
    (h : (dkeys m).Nodup) : (dkeys (dset m k v)).Nodup := by
  by_cases hm : dmem m k
  · rw [dkeys_dset_of_dmem hm]; exact h
  · rw [dkeys_dset_of_not_dmem (by simp [hm])]
    rw [List.nodup_append]
    refine ⟨h, List.nodup_singleton k, ?_⟩
    intro a ha hb
    rw [List.mem_singleton] at hb
    subst hb
    unfold dmem dget? at hm
    apply hm
    obtain ⟨p, hp, hp1⟩ := List.mem_map.mp ha
    have hne : m.find? (fun q => q.1 == a) ≠ none := by
      rw [Ne, List.find?_eq_none]
      push_neg
      exact ⟨p, hp, by simp [hp1]⟩
    cases hfind : m.find? (fun q => q.1 == a) with
    | none => exact absurd hfind hne
    | some q => simp [hfind]

theorem dmem_eq_contains_dkeys {α : Type} (m : List (String × α)) (k : String) :
    dmem m k = (dkeys m).contains k := by
  induction m with
  | nil => rfl
  | cons p rest ih =>
    simp only [dmem, dget?, dkeys, List.find?_cons, List.map_cons, List.contains_cons] at *
    by_cases hp : p.1 = k
    · subst hp
      simp
    · have h1 : (p.1 == k) = false := by simp [hp]
      have h2 : (k == p.1) = false := by
        simp only [beq_eq_false_iff_ne, Ne]
        exact fun hh => hp hh.symm
      simp [h1, h2, ih]

/-! ## Helper lemmas: descending insertion sort -/

theorem charListLeB_total : ∀ a b : List Char,
    charListLeB a b = true ∨ charListLeB b a = true := by
  intro a
  induction a with
  | nil => intro b; left; rfl
  | cons x xs ih =>
    intro b
    cases b with
    | nil => right; rfl
    | cons y ys =>
      by_cases h1 : x.toNat < y.toNat
      · left
        simp [charListLeB, h1]
      · by_cases h2 : y.toNat < x.toNat
        · right
          simp [charListLeB, h2]
        · rcases ih ys with h | h
          · left
            simp [charListLeB, h1, h2, h]
          · right
            simp [charListLeB, h1, h2, h]

theorem strLeB_total (a b : String) : strLeB a b = true ∨ strLeB b a = true :=
  charListLeB_total a.toList b.toList

theorem sortedDescB_cons {α : Type} (key : α → String) (y : α) (l : List α) :
    sortedDescB key (y :: l) = true ↔
      (sortedDescB key l = true ∧ ∀ z, l.head? = some z → strLeB (key z) (key y) = true) := by
  cases l with
  | nil => simp [sortedDescB]
  | cons z zs =>
    simp only [sortedDescB, Bool.and_eq_true, List.head?_cons, Option.some.injEq]
    constructor
    · rintro ⟨h1, h2⟩
      exact ⟨h2, fun w hw => hw ▸ h1⟩
    · rintro ⟨h1, h2⟩
      exact ⟨h2 z rfl, h1⟩

theorem head?_insertDescBy {α : Type} (key : α → String) (x : α) (l : List α) :
    (insertDescBy key x l).head? = some x ∨ (insertDescBy key x l).head? = l.head? := by
  cases l with
  | nil => left; rfl
  | cons y ys =>
    unfold insertDescBy
    by_cases h : strLeB (key y) (key x)
    · left; rw [if_pos h]; rfl
    · right; rw [if_neg h]; rfl

theorem sortedDescB_insertDescBy {α : Type} (key : α → String) (x : α) :
    ∀ l : List α, sortedDescB key l = true →
      sortedDescB key (insertDescBy key x l) = true := by
  intro l
  induction l with
  | nil => intro _; rfl
  | cons y ys ih =>
    intro h
    unfold insertDescBy
    by_cases hle : strLeB (key y) (key x)
    · rw [if_pos hle]
      rw [sortedDescB_cons]
      refine ⟨h, ?_⟩
      intro z hz
      rw [List.head?_cons, Option.some.injEq] at hz
      exact hz ▸ hle
    · rw [if_neg hle]
      rw [sortedDescB_cons] at h ⊢
      have hxy : strLeB (key x) (key y) = true := by
        rcases strLeB_total (key y) (key x) with h1 | h1
        · exact absurd h1 hle
        · exact h1
      refine ⟨ih h.1, ?_⟩
      intro z hz
      rcases head?_insertDescBy key x ys with hh | hh
      · rw [hh, Option.some.injEq] at hz
        exact hz ▸ hxy
      · rw [hh] at hz
        exact h.2 z hz

theorem sortedDescB_sortDescBy {α : Type} (key : α → String) (l : List α) :
    sortedDescB key (sortDescBy key l) = true := by
  induction l with
  | nil => rfl
  | cons x xs ih => exact sortedDescB_insertDescBy key x _ ih

theorem perm_insertDescBy {α : Type} (key : α → String) (x : α) (l : List α) :
    List.Perm (insertDescBy key x l) (x :: l) := by
  induction l with
  | nil => exact List.Perm.refl _
  | cons y ys ih =>
    unfold insertDescBy
    by_cases h : strLeB (key y) (key x)
    · rw [if_pos h]
    · rw [if_neg h]
      exact List.Perm.trans (List.Perm.cons y ih) (List.Perm.swap x y ys)

theorem perm_sortDescBy {α : Type} (key : α → String) (l : List α) :
    List.Perm (sortDescBy key l) l := by
  induction l with
  | nil => exact List.Perm.refl _
  | cons x xs ih =>
    exact List.Perm.trans (perm_insertDescBy key x _) (List.Perm.cons x ih)

theorem length_sortDescBy {α : Type} (key : α → String) (l : List α) :
    (sortDescBy key l).length = l.length :=
  (perm_sortDescBy key l).length_eq

theorem sortedDescB_map {α β : Type} (key : β → String) (f : α → β) :
    ∀ l : List α, sortedDescB key (l.map f) = sortedDescB (fun a => key (f a)) l := by
  intro l
  induction l with
  | nil => rfl
  | cons x tail ih =>
    cases tail with
    | nil => rfl
    | cons y rest =>
      simp only [List.map_cons, sortedDescB] at ih ⊢
      rw [ih]

/-! ## Helper lemmas: the complexity formula -/

theorem foldl_half_bonus (p : String → Bool) (l : List String) (base : ℚ) :
    l.foldl (fun c i => if p i then c + 0.5 else c) base =
      base + ((l.filter p).length : ℚ) * 0.5 := by
  induction l generalizing base with
  | nil => simp
  | cons hd tl ih =>
    by_cases h : p hd
    · simp only [List.foldl_cons, List.filter_cons, h, if_pos, ih, List.length_cons]
      push_cast
      ring
    · simp only [List.foldl_cons, List.filter_cons, h, if_neg, Bool.false_eq_true,
        not_false_eq_true, ih]

/-- Closed form of `_calculate_complexity`: the loop over complexity
indicators adds 0.5 per match to the capped base. -/
theorem calculateComplexity_closed (q : String) :
    calculateComplexity q =
      min 10.0 (min 5.0 ((q.length : ℚ) / 100 +
          (countChar q ',' : ℚ) * 0.1 + (countChar q '?' : ℚ) * 0.3) +
        ((complexIndicators.filter (fun i => strContainsB (pyLower q) i)).length : ℚ) * 0.5) := by
  unfold calculateComplexity
  dsimp only
  rw [foldl_half_bonus]

/-! ## Helper lemmas: optimizer bounds invariant -/

theorem forall_dset {α : Type} {m : List (String × α)} {k : String} {v : α}
    (P : α → Prop) (hm : ∀ p ∈ m, P p.2) (hv : P v) : ∀ p ∈ dset m k v, P p.2 := by
  intro p hp
  rcases mem_dset hp with he | he
  · rw [he]
    exact hv
  · exact hm p he

theorem forall_foldl_dset_const {α : Type} (P : α → Prop) (v : α) (hv : P v)
    (ks : List String) :
    ∀ m0 : List (String × α), (∀ p ∈ m0, P p.2) →
      ∀ p ∈ ks.foldl (fun m k => dset m k v) m0, P p.2 := by
  induction ks with
  | nil => intro m0 hm0; exact hm0
  | cons k ks ih =>
    intro m0 hm0
    exact ih (dset m0 k v) (forall_dset P hm0 hv)

theorem emaRate_bounds (r d wv : ℚ) (hr0 : 0 ≤ r) (hr1 : r ≤ 1) (hd0 : 0 ≤ d)
    (hd1 : d ≤ 1) (hw0 : 0 ≤ wv) (hw1 : wv ≤ 1) :
    0 ≤ r * d + wv * (1 - d) ∧ r * d + wv * (1 - d) ≤ 1 := by
  constructor
  · have h1 := mul_nonneg hr0 hd0
    have h2 := mul_nonneg hw0 (by linarith : (0:ℚ) ≤ 1 - d)
    linarith
  · nlinarith

theorem decayFactor_bounds (k : Nat) :
    0 ≤ ((k : ℚ) / ((k : ℚ) + 10)) ∧ ((k : ℚ) / ((k : ℚ) + 10)) ≤ 1 := by
  have hk : (0:ℚ) ≤ (k : ℚ) := Nat.cast_nonneg k
  have hden : (0:ℚ) < (k : ℚ) + 10 := by linarith
  constructor
  · exact div_nonneg hk (le_of_lt hden)
  · rw [div_le_one hden]
    linarith

theorem updateWinRate_frame (st : OptState) (m : String) (w : Bool) :
    (updateWinRate st m w).modelWeights = st.modelWeights ∧
    (updateWinRate st m w).modelAvgScore = st.modelAvgScore ∧
    (updateWinRate st m w).minWeight = st.minWeight ∧
    (updateWinRate st m w).maxWeight = st.maxWeight ∧
    (updateWinRate st m w).winRateWeight = st.winRateWeight ∧
    (updateWinRate st m w).scoreWeight = st.scoreWeight ∧
    (updateWinRate st m w).weightUpdateFactor = st.weightUpdateFactor ∧
    (updateWinRate st m w).defaultWeight = st.defaultWeight := by
  unfold updateWinRate
  cases hmem : dmem st.modelWinRate m <;> simp [hmem]

theorem updateWinRate_winRate_bounds (st : OptState) (m : String) (w : Bool)
    (h : ∀ p ∈ st.modelWinRate, 0 ≤ p.2 ∧ p.2 ≤ 1) :
    ∀ p ∈ (updateWinRate st m w).modelWinRate, 0 ≤ p.2 ∧ p.2 ≤ 1 := by
  have hhalf : (0:ℚ) ≤ 0.5 ∧ (0.5:ℚ) ≤ 1 := by norm_num
  have hwv : (0:ℚ) ≤ (if w = true then (1.0:ℚ) else 0.0) ∧
      (if w = true then (1.0:ℚ) else 0.0) ≤ 1 := by
    cases w <;> norm_num
  unfold updateWinRate
  cases hmem : dmem st.modelWinRate m <;> simp only [hmem, if_true, if_false,
    Bool.false_eq_true, ite_true, ite_false]
  · have hbase := forall_dset (m := st.modelWinRate) (k := m) (v := 0.5)
      (fun v => 0 ≤ v ∧ v ≤ 1) h hhalf
    have hr := dgetD_prop (m := dset st.modelWinRate m 0.5) (k := m) (d := 0.5)
      (fun v => 0 ≤ v ∧ v ≤ 1) hbase hhalf
    have hd := decayFactor_bounds (min 100 (dgetD (dset st.modelSelectionCount m 0) m 0 + 1))
    exact forall_dset (fun v => 0 ≤ v ∧ v ≤ 1) hbase
      (emaRate_bounds _ _ _ hr.1 hr.2 hd.1 hd.2 hwv.1 hwv.2)
  · have hr := dgetD_prop (m := st.modelWinRate) (k := m) (d := 0.5)
      (fun v => 0 ≤ v ∧ v ≤ 1) h hhalf
    have hd := decayFactor_bounds (min 100 (dgetD st.modelSelectionCount m 0 + 1))
    exact forall_dset (fun v => 0 ≤ v ∧ v ≤ 1) h
      (emaRate_bounds _ _ _ hr.1 hr.2 hd.1 hd.2 hwv.1 hwv.2)

theorem foldl_updateWinRate_frame (sel : String) (l : List String) :
    ∀ st : OptState,
    ((l.foldl (fun s m => updateWinRate s m (m == sel)) st).modelWeights = st.modelWeights ∧
     (l.foldl (fun s m => updateWinRate s m (m == sel)) st).modelAvgScore = st.modelAvgScore ∧
     (l.foldl (fun s m => updateWinRate s m (m == sel)) st).minWeight = st.minWeight ∧
     (l.foldl (fun s m => updateWinRate s m (m == sel)) st).maxWeight = st.maxWeight ∧
     (l.foldl (fun s m => updateWinRate s m (m == sel)) st).winRateWeight = st.winRateWeight ∧
     (l.foldl (fun s m => updateWinRate s m (m == sel)) st).scoreWeight = st.scoreWeight ∧
     (l.foldl (fun s m => updateWinRate s m (m == sel)) st).weightUpdateFactor
       = st.weightUpdateFactor ∧
     (l.foldl (fun s m => updateWinRate s m (m == sel)) st).defaultWeight = st.defaultWeight) := by
  induction l with
  | nil => intro st; exact ⟨rfl, rfl, rfl, rfl, rfl, rfl, rfl, rfl⟩
  | cons x xs ih =>
    intro st
    have h1 := updateWinRate_frame st x (x == sel)
    have h2 := ih (updateWinRate st x (x == sel))
    simp only [List.foldl_cons]
    exact ⟨h2.1.trans h1.1, h2.2.1.trans h1.2.1, h2.2.2.1.trans h1.2.2.1,
      h2.2.2.2.1.trans h1.2.2.2.1, h2.2.2.2.2.1.trans h1.2.2.2.2.1,
      h2.2.2.2.2.2.1.trans h1.2.2.2.2.2.1, h2.2.2.2.2.2.2.1.trans h1.2.2.2.2.2.2.1,
      h2.2.2.2.2.2.2.2.trans h1.2.2.2.2.2.2.2⟩

theorem foldl_updateWinRate_winRate_bounds (sel : String) (l : List String) :
    ∀ st : OptState, (∀ p ∈ st.modelWinRate, 0 ≤ p.2 ∧ p.2 ≤ 1) →
      ∀ p ∈ (l.foldl (fun s m => updateWinRate s m (m == sel)) st).modelWinRate,
        0 ≤ p.2 ∧ p.2 ≤ 1 := by
  induction l with
  | nil => intro st h; exact h
  | cons x xs ih =>
    intro st h
    simp only [List.foldl_cons]
    exact ih _ (updateWinRate_winRate_bounds st x (x == sel) h)

theorem bumpCacheEntry_frame (st : OptState) (key model : String) (fs : ℚ) :
    (bumpCacheEntry st key model fs).modelWeights = st.modelWeights ∧
    (bumpCacheEntry st key model fs).modelWinRate = st.modelWinRate ∧
    (bumpCacheEntry st key model fs).modelAvgScore = st.modelAvgScore ∧
    (bumpCacheEntry st key model fs).minWeight = st.minWeight ∧
    (bumpCacheEntry st key model fs).maxWeight = st.maxWeight := by
  exact ⟨rfl, rfl, rfl, rfl, rfl⟩

theorem foldl_bumpCacheEntry_frame (model : String) (fs : ℚ) (l : List String) :
    ∀ st : OptState,
    ((l.foldl (fun s kw => bumpCacheEntry s kw model fs) st).modelWeights = st.modelWeights ∧
     (l.foldl (fun s kw => bumpCacheEntry s kw model fs) st).modelWinRate = st.modelWinRate ∧
     (l.foldl (fun s kw => bumpCacheEntry s kw model fs) st).modelAvgScore = st.modelAvgScore ∧
     (l.foldl (fun s kw => bumpCacheEntry s kw model fs) st).minWeight = st.minWeight ∧
     (l.foldl (fun s kw => bumpCacheEntry s kw model fs) st).maxWeight = st.maxWeight) := by
  induction l with
  | nil => intro st; exact ⟨rfl, rfl, rfl, rfl, rfl⟩
  | cons x xs ih =>
    intro st
    simp only [List.foldl_cons]
    exact ih (bumpCacheEntry st x model fs)

theorem updatePerformanceCache_frame (st : OptState) (query model : String)
    (fs : Option ℚ) :
    (updatePerformanceCache st query model fs).modelWeights = st.modelWeights ∧
    (updatePerformanceCache st query model fs).modelWinRate = st.modelWinRate ∧
    (updatePerformanceCache st query model fs).modelAvgScore = st.modelAvgScore ∧
    (updatePerformanceCache st query model fs).minWeight = st.minWeight ∧
    (updatePerformanceCache st query model fs).maxWeight = st.maxWeight := by
  cases fs with
  | none => exact ⟨rfl, rfl, rfl, rfl, rfl⟩
  | some v =>
    unfold updatePerformanceCache
    have h1 := foldl_bumpCacheEntry_frame model v (extractKeywords query) st
    have h2 := bumpCacheEntry_frame
      ((extractKeywords query).foldl (fun s kw => bumpCacheEntry s kw model v) st)
      ("type:" ++ inferQueryTypePO query) model v
    exact ⟨h2.1.trans h1.1, h2.2.1.trans h1.2.1, h2.2.2.1.trans h1.2.2.1,
      h2.2.2.2.1.trans h1.2.2.2.1, h2.2.2.2.2.trans h1.2.2.2.2⟩

theorem updateWeightsTail_invariant (st : OptState) (query sel : String)
    (fs : Option ℚ) (hinv : OptBoundsInvariant st) :
    OptBoundsInvariant (updateWeightsTail st query sel fs) := by
  obtain ⟨hmm, hw, hwr, hav⟩ := hinv
  unfold updateWeightsTail
  set newWeight := max st.minWeight (min st.maxWeight
    (dgetD st.modelWeights sel st.defaultWeight +
      (dgetD st.modelWinRate sel 0.5 * st.winRateWeight +
        dgetD st.modelAvgScore sel 0.5 * st.scoreWeight - 0.5) * st.weightUpdateFactor))
    with hnw
  have hnwb : st.minWeight ≤ newWeight ∧ newWeight ≤ st.maxWeight := by
    constructor
    · exact le_max_left _ _
    · rw [hnw]
      exact max_le hmm (min_le_left _ _)
  have hframe := updatePerformanceCache_frame
    { st with modelWeights := dset st.modelWeights sel newWeight } query sel fs
  refine ⟨?_, ?_, ?_, ?_⟩
  · rw [hframe.2.2.2.1, hframe.2.2.2.2]
    exact hmm
  · rw [hframe.1, hframe.2.2.2.1, hframe.2.2.2.2]
    exact forall_dset (fun v => st.minWeight ≤ v ∧ v ≤ st.maxWeight) hw hnwb
  · rw [hframe.2.1]
    exact hwr
  · rw [hframe.2.2.1]
    exact hav

theorem newAvg_eq (a s c : ℚ) (hc : c ≠ 0) :
    (a * 0.9 * c + s * 0.1 * c) / c = a * 0.9 + s * 0.1 := by
  field_simp
  ring

theorem updateWeightsFromFeedback_invariant (st : OptState) (query : String)
    (responses : List (String × String)) (sel : String) (fs : Option ℚ)
    (hfs : ∀ s, fs = some s → 0 ≤ s ∧ s ≤ 1) (hinv : OptBoundsInvariant st) :
    OptBoundsInvariant (updateWeightsFromFeedback st query responses sel fs).1 := by
  unfold updateWeightsFromFeedback
  by_cases hguard : sel = "" ∨ ¬ dmem st.modelWeights sel
  · rw [if_pos hguard]
    exact hinv
  · rw [if_neg hguard]
    set st1 := if (dkeys responses).length > 1 ∧ (dkeys responses).contains sel then
      (dkeys responses).foldl (fun s m => updateWinRate s m (m == sel)) st else st with hst1
    have hinv1 : OptBoundsInvariant st1 := by
      rw [hst1]
      by_cases hcond : (dkeys responses).length > 1 ∧ (dkeys responses).contains sel
      · rw [if_pos hcond]
        obtain ⟨hmm, hw, hwr, hav⟩ := hinv
        have hf := foldl_updateWinRate_frame sel (dkeys responses) st
        refine ⟨?_, ?_, ?_, ?_⟩
        · rw [hf.2.2.1, hf.2.2.2.1]; exact hmm
        · rw [hf.1, hf.2.2.1, hf.2.2.2.1]; exact hw
        · exact foldl_updateWinRate_winRate_bounds sel (dkeys responses) st hwr
        · rw [hf.2.1]; exact hav
      · rw [if_neg hcond]
        exact hinv
    cases fs with
    | none => exact updateWeightsTail_invariant st1 query sel none hinv1
    | some v =>
      simp only
      by_cases hcount : dgetD st1.modelSelectionCount sel 1 = 0
      · rw [if_pos hcount]
        exact hinv1
      · rw [if_neg hcount]
        obtain ⟨hmm1, hw1, hwr1, hav1⟩ := hinv1
        have hvb : 0 ≤ v ∧ v ≤ 1 := hfs v rfl
        have hcast : ((dgetD st1.modelSelectionCount sel 1 : Nat) : ℚ) ≠ 0 := by
          exact_mod_cast hcount
        have ha := dgetD_prop (m := st1.modelAvgScore) (k := sel) (d := 0.5)
          (fun x => 0 ≤ x ∧ x ≤ 1) hav1 (by norm_num)
        have havg : 0 ≤ (dgetD st1.modelAvgScore sel 0.5 * 0.9 *
            ((dgetD st1.modelSelectionCount sel 1 : Nat) : ℚ) + v * 0.1 *
            ((dgetD st1.modelSelectionCount sel 1 : Nat) : ℚ)) /
            ((dgetD st1.modelSelectionCount sel 1 : Nat) : ℚ) ∧
            (dgetD st1.modelAvgScore sel 0.5 * 0.9 *
            ((dgetD st1.modelSelectionCount sel 1 : Nat) : ℚ) + v * 0.1 *
            ((dgetD st1.modelSelectionCount sel 1 : Nat) : ℚ)) /
            ((dgetD st1.modelSelectionCount sel 1 : Nat) : ℚ) ≤ 1 := by
          rw [newAvg_eq _ _ _ hcast]
          constructor
          · have := mul_nonneg ha.1 (by norm_num : (0:ℚ) ≤ 0.9)
            have := mul_nonneg hvb.1 (by norm_num : (0:ℚ) ≤ 0.1)
            linarith
          · nlinarith [ha.2, hvb.2]
        apply updateWeightsTail_invariant
        refine ⟨hmm1, hw1, hwr1, ?_⟩
        exact forall_dset (fun x => 0 ≤ x ∧ x ≤ 1) hav1 havg

theorem initialState_invariant (cfg : OptConfig)
    (h1 : cfg.pref.minWeight ≤ cfg.pref.maxWeight)
    (h2 : cfg.pref.minWeight ≤ cfg.pref.defaultWeight)
    (h3 : cfg.pref.defaultWeight ≤ cfg.pref.maxWeight) :
    OptBoundsInvariant (initialState cfg) := by
  unfold initialState
  refine ⟨h1, ?_, ?_, ?_⟩
  · exact forall_foldl_dset_const (fun v => cfg.pref.minWeight ≤ v ∧ v ≤ cfg.pref.maxWeight)
      cfg.pref.defaultWeight ⟨h2, h3⟩ _ [] (by intro p hp; cases hp)
  · exact forall_foldl_dset_const (fun v => 0 ≤ v ∧ v ≤ 1) 0.5 (by norm_num) _ []
      (by intro p hp; cases hp)
  · exact forall_foldl_dset_const (fun v => 0 ≤ v ∧ v ≤ 1) 0.5 (by norm_num) _ []
      (by intro p hp; cases hp)

theorem foldl_feedbackCalls_invariant (calls : List FeedbackCall) :
    ∀ st : OptState, OptBoundsInvariant st →
      (∀ c ∈ calls, ∀ s, c.score = some s → 0 ≤ s ∧ s ≤ 1) →
      OptBoundsInvariant (calls.foldl
        (fun st c => (updateWeightsFromFeedback st c.query c.responses c.selected c.score).1)
        st) := by
  induction calls with
  | nil => intro st h _; exact h
  | cons c cs ih =>
    intro st h hs
    simp only [List.foldl_cons]
    refine ih _ ?_ ?_
    · exact updateWeightsFromFeedback_invariant st c.query c.responses c.selected c.score
        (hs c (List.mem_cons_self c cs)) h
    · intro d hd
      exact hs d (List.mem_cons_of_mem c hd)

/-! ## Helper lemmas: weight-key frame -/

theorem updateWeightsTail_weights_keys (st : OptState) (q sel : String) (fs : Option ℚ)
    (h : dmem st.modelWeights sel = true) :
    dkeys (updateWeightsTail st q sel fs).modelWeights = dkeys st.modelWeights := by
  unfold updateWeightsTail
  rw [(updatePerformanceCache_frame _ q sel fs).1]
  exact dkeys_dset_of_dmem h

theorem updateWeightsFromFeedback_weights_keys (st : OptState) (q : String)
    (responses : List (String × String)) (sel : String) (fs : Option ℚ) :
    dkeys (updateWeightsFromFeedback st q responses sel fs).1.modelWeights =
      dkeys st.modelWeights := by
  unfold updateWeightsFromFeedback
  by_cases hguard : sel = "" ∨ ¬ dmem st.modelWeights sel
  · rw [if_pos hguard]
  · rw [if_neg hguard]
    have hsel : dmem st.modelWeights sel = true := by
      push_neg at hguard
      simpa using hguard.2
    set st1 := if (dkeys responses).length > 1 ∧ (dkeys responses).contains sel then
      (dkeys responses).foldl (fun s m => updateWinRate s m (m == sel)) st else st with hst1
    have hw1 : st1.modelWeights = st.modelWeights := by
      rw [hst1]
      by_cases hcond : (dkeys responses).length > 1 ∧ (dkeys responses).contains sel
      · rw [if_pos hcond]
        exact (foldl_updateWinRate_frame sel (dkeys responses) st).1
      · rw [if_neg hcond]
    have hsel1 : dmem st1.modelWeights sel = true := by rw [hw1]; exact hsel
    cases fs with
    | none =>
      rw [updateWeightsTail_weights_keys st1 q sel none hsel1, hw1]
    | some v =>
      simp only
      by_cases hcount : dgetD st1.modelSelectionCount sel 1 = 0
      · rw [if_pos hcount]
        simp only
        rw [hw1]
      · rw [if_neg hcount]
        simp only
        rw [updateWeightsTail_weights_keys]
        · show dkeys st1.modelWeights = dkeys st.modelWeights
          rw [hw1]
        · show dmem st1.modelWeights sel = true
          exact hsel1

theorem listContains_append (l1 l2 : List String) (a : String) :
    (l1 ++ l2).contains a = (l1.contains a || l2.contains a) := by
  induction l1 with
  | nil => simp
  | cons x xs ih => simp [List.contains_cons, ih, Bool.or_assoc]

theorem dkeys_foldl_dset_of_nodup {α : Type} (v : String → α) :
    ∀ (ks : List String) (m0 : List (String × α)), ks.Nodup →
      (∀ k ∈ ks, dmem m0 k = false) →
      dkeys (ks.foldl (fun m k => dset m k (v k)) m0) = dkeys m0 ++ ks := by
  intro ks
  induction ks with
  | nil => intro m0 _ _; simp
  | cons k rest ih =>
    intro m0 hnodup hfresh
    rw [List.nodup_cons] at hnodup
    have hk : dmem m0 k = false := hfresh k (List.mem_cons_self k rest)
    simp only [List.foldl_cons]
    have hfresh2 : ∀ k2 ∈ rest, dmem (dset m0 k (v k)) k2 = false := by
      intro k2 hk2
      rw [dmem_eq_contains_dkeys, dkeys_dset_of_not_dmem hk]
      have h1 : (dkeys m0).contains k2 = false := by
        rw [← dmem_eq_contains_dkeys]
        exact hfresh k2 (List.mem_cons_of_mem k hk2)
      have h2 : k2 ≠ k := fun he => hnodup.1 (he ▸ hk2)
      have h3 : k2 ∉ dkeys m0 := by simpa using h1
      simp [listContains_append, List.contains_cons, h2, h3]
    rw [ih (dset m0 k (v k)) hnodup.2 hfresh2, dkeys_dset_of_not_dmem hk]
    simp

theorem nodup_dkeys_foldl_dset {α β : Type} (name : β → String) (v : β → α) :
    ∀ (l : List β) (m0 : List (String × α)), (dkeys m0).Nodup →
      (dkeys (l.foldl (fun acc m => dset acc (name m) (v m)) m0)).Nodup := by
  intro l
  induction l with
  | nil => intro m0 h; exact h
  | cons x xs ih =>
    intro m0 h
    simp only [List.foldl_cons]
    exact ih _ (nodup_dkeys_dset h)

theorem nodup_dkeys_loadModelStrengths (cfg : OptConfig) :
    (dkeys (loadModelStrengths cfg)).Nodup := by
  unfold loadModelStrengths
  have hbase := nodup_dkeys_foldl_dset (fun m : ModelConfig => m.name)
    (fun m => normalizeStrengths m.strengths 0.5)
    (cfg.models.filter (fun m => m.name ≠ "")) [] List.nodup_nil
  cases cfg.groupDiscussion with
  | none => exact hbase
  | some g => exact nodup_dkeys_dset hbase

theorem initialState_weights_keys (cfg : OptConfig) :
    dkeys (initialState cfg).modelWeights = dkeys (loadModelStrengths cfg) := by
  unfold initialState
  simp only
  rw [dkeys_foldl_dset_of_nodup (fun _ => cfg.pref.defaultWeight)
    (dkeys (loadModelStrengths cfg)) [] (nodup_dkeys_loadModelStrengths cfg)
    (by intro k _; rfl)]
  simp [dkeys]

theorem foldl_feedbackCalls_weights_keys (calls : List FeedbackCall) :
    ∀ st : OptState,
      dkeys ((calls.foldl
        (fun st c => (updateWeightsFromFeedback st c.query c.responses c.selected c.score).1)
        st)).modelWeights = dkeys st.modelWeights := by
  induction calls with
  | nil => intro st; rfl
  | cons c cs ih =>
    intro st
    simp only [List.foldl_cons]
    rw [ih _, updateWeightsFromFeedback_weights_keys]

/-! ## Helper lemmas: lists, enumeration, joining -/

theorem take_append_self {α : Type} : ∀ (l1 l2 : List α), (l1 ++ l2).take l1.length = l1 := by
  intro l1 l2
  induction l1 with
  | nil => rfl
  | cons x xs ih => simp [ih]

theorem drop_append_self {α : Type} : ∀ (l1 l2 : List α), (l1 ++ l2).drop l1.length = l2 := by
  intro l1 l2
  induction l1 with
  | nil => rfl
  | cons x xs ih => simp [ih]

theorem enumFrom_map_comp {α β γ : Type} (g : Nat × α → β) (h : β → γ) (f : α → γ)
    (hcomp : ∀ i a, h (g (i, a)) = f a) :
    ∀ (n : Nat) (l : List α), ((List.enumFrom n l).map g).map h = l.map f := by
  intro n l
  induction l generalizing n with
  | nil => rfl
  | cons x xs ih => simp [List.enumFrom, hcomp, ih]

theorem mem_enumFrom_map {α β : Type} (g : Nat × α → β) :
    ∀ (n : Nat) (l : List α), ∀ b ∈ (List.enumFrom n l).map g,
      ∃ i, ∃ a ∈ l, b = g (i, a) := by
  intro n l
  induction l generalizing n with
  | nil => intro b hb; cases hb
  | cons x xs ih =>
    intro b hb
    simp only [List.enumFrom, List.map_cons, List.mem_cons] at hb
    rcases hb with hb | hb
    · exact ⟨n, x, List.mem_cons_self x xs, hb⟩
    · obtain ⟨i, a, ha, he⟩ := ih (n + 1) b hb
      exact ⟨i, a, List.mem_cons_of_mem x ha, he⟩

theorem mem_dkeys_of_dgetD_ne {m : List (String × String)} {k : String}
    (h : dgetD m k "" ≠ "") : k ∈ dkeys m := by
  unfold dgetD dget? at h
  cases hfind : m.find? (fun p => p.1 == k) with
  | none => rw [hfind] at h; exact absurd rfl h
  | some q =>
    have hq := List.mem_of_find?_eq_some hfind
    have hqk : q.1 = k := by
      have := List.find?_some hfind
      exact eq_of_beq this
    exact hqk ▸ List.mem_map_of_mem (fun p => p.1) hq

theorem length_le_foldl_joinSep (sep : String) (l : List String) :
    ∀ acc : String, acc.length ≤ (l.foldl (fun a y => a ++ sep ++ y) acc).length := by
  induction l with
  | nil => intro acc; exact le_refl _
  | cons y ys ih =>
    intro acc
    refine le_trans ?_ (ih (acc ++ sep ++ y))
    rw [String.length_append, String.length_append]
    omega

theorem joinSep_head_length_le (sep x : String) (xs : List String) :
    x.length ≤ (joinSep sep (x :: xs)).length :=
  length_le_foldl_joinSep sep xs x

theorem joinSep_ne_empty_of_head (sep x : String) (xs : List String)
    (hx : 0 < x.length) : joinSep sep (x :: xs) ≠ "" := by
  intro he
  have h := joinSep_head_length_le sep x xs
  rw [he] at h
  simp only [String.length_empty] at h
  omega


/-! ## Claim theorems -/

/-- C1: the spec claims `update_weights_from_feedback` never raises, in
particular not when the selected model is known, a numeric score is
supplied, the responses map contains only that model, and the model has
`selection_count = 0`.  Evaluating the embedded method at exactly that
input shows the average-score update divides by the zero selection
count: the second component `false` marks the `ZeroDivisionError` path
(while the same call without a score completes normally).  This proves
the code violates the documented failure semantics. -/
theorem C1_update_weights_divides_by_zero :
    (updateWeightsFromFeedback stA "q" [("modelA", "x")] "modelA" (some 0.8)).2 = false ∧
    (updateWeightsFromFeedback stA "q" [("modelA", "x")] "modelA" none).2 = true :=
  ⟨rfl, rfl⟩

/-- C2 counterexample: with one configured model, `select_best_model`
on the empty candidate list returns that model (the empty list is falsy
in Python and falls through to the configured model list), not none;
and on a singleton list naming an unknown model it returns none, not
that model.  Both refute the claim as stated. -/
theorem C2_counterexample :
    (selectBestModel stA qaDefault (some [])).1 = some "modelA" ∧
    (selectBestModel stA qaDefault (some [{ name := "modelB", strengths := [] }])).1
      = none :=
  ⟨rfl, rfl⟩

/-- C2 (amended): `select_best_model` treats an empty candidate list
exactly like an absent one, falling back to the configured models (so
it returns none only when no model is known), and a singleton candidate
list returns its model provided the optimizer knows that model. -/
theorem C2_select_best_model_amended (st : OptState) (qa : QueryAnalysis)
    (name : String) (s : List (String × ℚ))
    (hname : name ≠ "") (hknown : dmem st.modelStrengths name = true) :
    selectBestModel st qa (some []) = selectBestModel st qa none ∧
    (selectBestModel st qa (some [{ name := name, strengths := s }])).1 = some name ∧
    (st.modelStrengths = [] → (selectBestModel st qa (some [])).1 = none) := by
  refine ⟨rfl, ?_, ?_⟩
  · unfold selectBestModel
    simp [hname, hknown]
  · intro h
    unfold selectBestModel
    simp [h]

/-- C2 witness: the amended statement evaluated at the one-model
fixture. -/
theorem C2_select_best_model_witness :
    selectBestModel stA qaDefault (some []) = selectBestModel stA qaDefault none ∧
    (selectBestModel stA qaDefault (some [{ name := "modelA", strengths := [] }])).1
      = some "modelA" ∧
    (stA.modelStrengths = [] → (selectBestModel stA qaDefault (some [])).1 = none) :=
  C2_select_best_model_amended stA qaDefault "modelA" [] (by decide) (by rfl)

/-- C3 counterexample: on a query of 60 commas the code yields
complexity 5 (the length/comma/question part is capped at 5.0 before
the keyword bonus), while the formula claimed by the spec yields 6.6,
so the claimed formula is not the one computed. -/
theorem C3_counterexample : calculateComplexity commaQuery ≠ specComplexity commaQuery := by
  have h1 : countChar commaQuery ',' = 60 := by decide
  have h2 : countChar commaQuery '?' = 0 := by decide
  have h3 : commaQuery.length = 60 := by decide
  have h4 : (complexIndicators.filter (fun i => strContainsB (pyLower commaQuery) i)).length
      = 0 := by decide
  rw [calculateComplexity_closed]
  unfold specComplexity
  rw [h1, h2, h3, h4]
  norm_num

/-- C3 (amended): for every query the complexity score equals
`min(10, min(5, len/100 + 0.1*commas + 0.3*questions) +
0.5*matched_complexity_keywords)` — the spec formula with the inner 5.0
cap restored. -/
theorem C3_complexity_amended (query : String) :
    calculateComplexity query =
      min 10.0 (min 5.0 ((query.length : ℚ) / 100 +
          (countChar query ',' : ℚ) * 0.1 + (countChar query '?' : ℚ) * 0.3) +
        ((complexIndicators.filter (fun i => strContainsB (pyLower query) i)).length : ℚ)
          * 0.5) :=
  calculateComplexity_closed query

/-- C4 counterexample: a store holding one feedback row with timestamp
"1" and one comparison row with timestamp "2" makes `get_all_feedback`
return the feedback row first, so the merged list is not ordered newest
first across both record kinds. -/
theorem C4_counterexample : sortedNewestFirst (getAllFeedback storeMixed) = false :=
  rfl

/-- C4 (amended): `get_all_feedback` returns the feedback records and
the comparison records merged into one list (a permutation of the rows
of both tables), with every comparison tagged
`type = "pairwise_comparison"` and every feedback record untagged; the
output is all feedback rows newest-first followed by all comparison
rows newest-first — ordered within each kind, not across kinds. -/
theorem C4_get_all_feedback_amended (s : StoreState) :
    List.Perm (getAllFeedback s)
      (s.feedback.map FeedbackEntry.fb ++ s.comparisons.map FeedbackEntry.comp) ∧
    sortedNewestFirst ((getAllFeedback s).take s.feedback.length) = true ∧
    sortedNewestFirst ((getAllFeedback s).drop s.feedback.length) = true ∧
    (∀ e ∈ (getAllFeedback s).take s.feedback.length, entryType e = none) ∧
    (∀ e ∈ (getAllFeedback s).drop s.feedback.length,
      entryType e = some "pairwise_comparison") := by
  have hlen : ((sortDescBy (fun r : FeedbackRow => r.timestamp) s.feedback).map
      FeedbackEntry.fb).length = s.feedback.length := by
    rw [List.length_map, length_sortDescBy]
  have htake : (getAllFeedback s).take s.feedback.length =
      (sortDescBy (fun r : FeedbackRow => r.timestamp) s.feedback).map FeedbackEntry.fb := by
    unfold getAllFeedback
    rw [← hlen, take_append_self]
  have hdrop : (getAllFeedback s).drop s.feedback.length =
      (sortDescBy (fun r : ComparisonRow => r.timestamp) s.comparisons).map
        FeedbackEntry.comp := by
    unfold getAllFeedback
    rw [← hlen, drop_append_self]
  refine ⟨?_, ?_, ?_, ?_, ?_⟩
  · unfold getAllFeedback
    exact List.Perm.append ((perm_sortDescBy _ _).map _) ((perm_sortDescBy _ _).map _)
  · rw [htake]
    unfold sortedNewestFirst
    rw [sortedDescB_map]
    exact sortedDescB_sortDescBy _ _
  · rw [hdrop]
    unfold sortedNewestFirst
    rw [sortedDescB_map]
    exact sortedDescB_sortDescBy _ _
  · rw [htake]
    intro e he
    obtain ⟨r, _, he2⟩ := List.mem_map.mp he
    rw [← he2]
    rfl
  · rw [hdrop]
    intro e he
    obtain ⟨r, _, he2⟩ := List.mem_map.mp he
    rw [← he2]
    rfl

/-- C5 counterexample: on a feedback table that lacks the
`conversation_id` column and a repair that does not fix it, the write
is still unfinished after 2 attempts (one retry) and still unfinished
after 50, refuting the claim that it terminates with at most one retry
even when the repair does not fix the error. -/
theorem C5_counterexample :
    saveFeedbackFuel false 2 rawTableCE rowCE = none ∧
    saveFeedbackFuel false 50 rawTableCE rowCE = none :=
  ⟨rfl, rfl⟩

/-- C5 (amended): on a missing-column error the store repairs the
schema and recursively re-enters the write with no retry bound.  When
the repair succeeds, the write does not finish on the first attempt but
finishes on the retry — exactly one retry — preserving the pre-existing
rows with an empty-string conversation id and upserting the new row;
when the repair keeps failing, the write never terminates. -/
theorem C5_schema_retry_amended (t : RawFeedbackTable) (r : FeedbackRow) (fuel : Nat)
    (hcol : t.hasConversationCol = false) (hid : r.id ≠ "") :
    saveFeedbackFuel true 1 t r = none ∧
    saveFeedbackFuel true (fuel + 2) t r =
      some ({ hasConversationCol := true
              rows := insertOrReplace (fun x => x.id)
                (t.rows.map (fun x => { x with conversationId := some "" })) (toRawRow r) },
            some r.id) ∧
    (∀ n, saveFeedbackFuel false n t r = none) := by
  refine ⟨?_, ?_, ?_⟩
  · show saveFeedbackFuel true (0 + 1) t r = none
    simp [saveFeedbackFuel, hid, hcol, fixDatabaseSchema]
  · show saveFeedbackFuel true (fuel + 1 + 1) t r = _
    rw [saveFeedbackFuel]
    rw [if_neg hid, if_neg (by simp [hcol])]
    rw [saveFeedbackFuel]
    simp [hid, hcol, fixDatabaseSchema]
  · intro n
    induction n with
    | zero => rfl
    | succ k ih =>
      show saveFeedbackFuel false (k + 1) t r = none
      rw [saveFeedbackFuel]
      rw [if_neg hid, if_neg (by simp [hcol])]
      simpa [fixDatabaseSchema] using ih

/-- C5 witness: the amended statement evaluated at the concrete
outdated table and row fixtures. -/
theorem C5_schema_retry_witness :
    saveFeedbackFuel true 1 rawTableCE rowCE = none ∧
    saveFeedbackFuel true (0 + 2) rawTableCE rowCE =
      some ({ hasConversationCol := true
              rows := insertOrReplace (fun x => x.id)
                (rawTableCE.rows.map (fun x => { x with conversationId := some "" }))
                (toRawRow rowCE) },
            some rowCE.id) ∧
    (∀ n, saveFeedbackFuel false n rawTableCE rowCE = none) :=
  C5_schema_retry_amended rawTableCE rowCE 0 rfl (by decide)

/-- C6 counterexample: a globally disabled manager still performs the
export (the bundle serializes both records of the live store) and
`get_stats` still reads the live store, because neither method checks
the `enabled` flag — refuting the claim that every public method is a
no-op when disabled. -/
theorem C6_counterexample :
    managerDisabled.enabled = false ∧
    (managerExportFeedbackData managerDisabled).recordCount = 2 ∧
    (managerExportFeedbackData { managerDisabled with enabled := true }
      = managerExportFeedbackData managerDisabled) ∧
    (managerGetStats managerDisabled).totalSamples = 2 :=
  ⟨rfl, rfl, rfl, rfl⟩

/-- C6 (amended): when the manager is globally disabled, the three
guarded methods — `optimize_query`, `select_best_model` and
`process_feedback` — are no-ops returning their safe defaults and
leaving the state untouched (`export_feedback_data` and `get_stats`
have no such guard and operate on the live store regardless). -/
theorem C6_disabled_amended (m : ManagerState) (query conversationId : String)
    (analysis : Option QueryAnalysis) (am : Option (List ModelConfig))
    (responses : List (String × String)) (selR : String)
    (fs : Option ℚ) (ft : Option String) (newId now : String) (compIds : Nat → String)
    (h : m.enabled = false) :
    managerOptimizeQuery m query =
      ({ analysis := none, templateUsed := none, optimizedPrompt := query }, m) ∧
    managerSelectBestModel m query analysis am = (none, m) ∧
    managerProcessFeedback m conversationId query responses selR fs ft newId now compIds
      = (false, m) := by
  refine ⟨?_, ?_, ?_⟩ <;>
    simp [managerOptimizeQuery, managerSelectBestModel, managerProcessFeedback, h]

/-- C6 witness: the amended statement evaluated at the disabled
manager fixture. -/
theorem C6_disabled_witness :
    managerOptimizeQuery managerDisabled "q" =
      ({ analysis := none, templateUsed := none, optimizedPrompt := "q" }, managerDisabled) ∧
    managerSelectBestModel managerDisabled "q" none none = (none, managerDisabled) ∧
    managerProcessFeedback managerDisabled "c" "q" [("modelA", "x")] "modelA"
      (some 0.5) none "f1" "t1" (fun _ => "p") = (false, managerDisabled) :=
  C6_disabled_amended managerDisabled "q" "c" none none [("modelA", "x")] "modelA"
    (some 0.5) none "f1" "t1" (fun _ => "p") rfl

/-- C7: starting from the freshly initialized optimizer with the
default tunables, any sequence of `update_weights_from_feedback` calls
whose supplied scores lie in [0, 1] keeps every model weight within
[min_weight, max_weight] and every win rate and average score within
[0, 1] — including the states reached when a call raises after its
partial win-rate mutations. -/
theorem C7_bounds_invariant (cfg : OptConfig) (calls : List FeedbackCall)
    (hpref : cfg.pref = defaultPrefParams)
    (hscores : ∀ c ∈ calls, ∀ s, c.score = some s → 0 ≤ s ∧ s ≤ 1) :
    OptBoundsInvariant (applyFeedbackCalls cfg calls) := by
  have h0 : OptBoundsInvariant (initialState cfg) := by
    refine initialState_invariant cfg ?_ ?_ ?_ <;> rw [hpref] <;> norm_num [defaultPrefParams]
  unfold applyFeedbackCalls
  exact foldl_feedbackCalls_invariant calls (initialState cfg) h0 hscores

/-- C7 witness: the invariant holds after one concrete feedback call
with score 0.5 from the one-model configuration. -/
theorem C7_bounds_witness : OptBoundsInvariant (applyFeedbackCalls cfgA [callW]) := by
  refine C7_bounds_invariant cfgA [callW] rfl ?_
  intro c hc s hs
  rw [List.mem_singleton] at hc
  subst hc
  have hs2 : s = 0.5 := by
    have : (some (0.5 : ℚ)) = some s := hs
    injection this with h
    exact h.symm
  rw [hs2]
  norm_num

/-- C8 counterexample: with responses {modelA: "", modelB: "y"} and
selected model modelA (named among 2 candidate responses), no
comparison record is created at all, although the claim demands exactly
one record for the non-selected modelB whose response is non-empty. -/
theorem C8_counterexample :
    createPairwiseComparisons "conv" "q" [("modelA", ""), ("modelB", "y")] "modelA"
      (fun _ => "cid") "t" = [] ∧
    ([("modelA", ""), ("modelB", "y")].filter
      (fun p => ¬ (p.1 == "modelA") ∧ p.2 ≠ "")).length = 1 :=
  ⟨rfl, rfl⟩

/-- C8 (amended): provided the selected model produced a non-empty
response, the derivation creates exactly one comparison record per
non-selected model with a non-empty response (in response-map order),
and every record has `chosen_model` equal to the selected model,
`rejected_model` distinct from it, and both names drawn from the
originating response map. -/
theorem C8_comparisons_amended (conversationId query : String)
    (responses : List (String × String)) (selected : String)
    (compIds : Nat → String) (now : String)
    (hsel : dgetD responses selected "" ≠ "") :
    (createPairwiseComparisons conversationId query responses selected compIds now).map
        (fun r => r.rejectedModel) =
      (responses.filter (fun p => ¬ (p.1 == selected) ∧ p.2 ≠ "")).map (fun p => p.1) ∧
    (∀ r ∈ createPairwiseComparisons conversationId query responses selected compIds now,
      r.chosenModel = selected ∧ r.rejectedModel ≠ selected ∧
      r.rejectedModel ∈ dkeys responses ∧ selected ∈ dkeys responses) := by
  unfold createPairwiseComparisons
  rw [if_neg hsel]
  constructor
  · unfold List.enum
    exact enumFrom_map_comp _ _ _ (fun i a => rfl) 0 _
  · intro r hr
    unfold List.enum at hr
    obtain ⟨i, p, hp, he⟩ := mem_enumFrom_map _ 0 _ r hr
    rw [List.mem_filter] at hp
    have hpred := hp.2
    simp only [decide_eq_true_eq, Bool.not_eq_true, decide_eq_false_iff_not] at hpred
    subst he
    refine ⟨rfl, ?_, ?_, mem_dkeys_of_dgetD_ne hsel⟩
    · show p.1 ≠ selected
      intro h
      exact absurd (by simp [h] : (p.1 == selected) = true) (by simpa using hpred.1)
    · exact List.mem_map_of_mem (fun q => q.1) hp.1

/-- C8 witness: the spec scenario — responses {modelA: "x",
modelB: "y"} with modelA selected — instantiating the amended claim. -/
theorem C8_comparisons_witness :
    (createPairwiseComparisons "c1" "q" [("modelA", "x"), ("modelB", "y")] "modelA"
        (fun _ => "cid") "t").map (fun r => r.rejectedModel) =
      ([("modelA", "x"), ("modelB", "y")].filter
        (fun p => ¬ (p.1 == "modelA") ∧ p.2 ≠ "")).map (fun p => p.1) ∧
    (∀ r ∈ createPairwiseComparisons "c1" "q" [("modelA", "x"), ("modelB", "y")] "modelA"
        (fun _ => "cid") "t",
      r.chosenModel = "modelA" ∧ r.rejectedModel ≠ "modelA" ∧
      r.rejectedModel ∈ dkeys [("modelA", "x"), ("modelB", "y")] ∧
      "modelA" ∈ dkeys [("modelA", "x"), ("modelB", "y")]) :=
  C8_comparisons_amended "c1" "q" [("modelA", "x"), ("modelB", "y")] "modelA"
    (fun _ => "cid") "t" (by decide)

/-- C9: whenever the participating-model list of a group discussion is
non-empty and the synthesis invocation fails, `conduct_discussion`
still reports success with a non-empty response, and when the final
round collected any responses that response is exactly the
deterministic role-labeled concatenation fallback. -/
theorem C9_synthesis_fallback (mm : ModelManagerEnv) (choice : List String → String)
    (gst : GroupDiscussionState) (query discussionId : String)
    (models : Option (List String)) (rounds : Option Nat)
    (hpart : selectParticipatingModels mm models ≠ [])
    (hsynth : ∀ prompt sys : String,
      mm.respond (selectSynthesisModel mm choice
        (dkeys (lastRoundResponses (discussionLogOf mm gst query models rounds)))) prompt sys
        = none) :
    outcomeSuccess (conductDiscussion mm choice gst query discussionId models rounds).1 = true ∧
    (∀ resp,
      outcomeResponse (conductDiscussion mm choice gst query discussionId models rounds).1
        = some resp → resp ≠ "") ∧
    (lastRoundResponses (discussionLogOf mm gst query models rounds) ≠ [] →
      outcomeResponse (conductDiscussion mm choice gst query discussionId models rounds).1 =
        some (fallbackCombined mm
          (lastRoundResponses (discussionLogOf mm gst query models rounds)))) := by
  have hne : (selectParticipatingModels mm models).isEmpty = false := by
    cases hpm : selectParticipatingModels mm models with
    | nil => exact absurd hpm hpart
    | cons x xs => rfl
  have hmain : ∀ L : List DiscussionRound,
      (∀ prompt sys : String,
        mm.respond (selectSynthesisModel mm choice (dkeys (lastRoundResponses L))) prompt sys
          = none) →
      (synthesizeFinalResponse mm choice gst query L ≠ "" ∧
       (lastRoundResponses L ≠ [] →
         synthesizeFinalResponse mm choice gst query L =
           fallbackCombined mm (lastRoundResponses L))) := by
    intro L hs
    unfold synthesizeFinalResponse
    cases hlast : L.getLast? with
    | none =>
      dsimp only
      constructor
      · intro he
        exact absurd he (by decide)
      · intro hne2
        exact absurd (by simp [lastRoundResponses, hlast]) hne2
    | some last =>
      dsimp only
      have hlr : lastRoundResponses L = last.responses := by
        simp [lastRoundResponses, hlast]
      by_cases hresp : last.responses.isEmpty
      · rw [if_pos hresp]
        constructor
        · intro he
          exact absurd he (by decide)
        · intro hne2
          rw [hlr] at hne2
          rw [List.isEmpty_iff] at hresp
          exact absurd hresp hne2
      · rw [if_neg hresp]
        have hr := hs (synthesisPrompt mm query last.responses) gst.systemPrompt
        rw [hlr] at hr
        rw [hr]
        rw [List.isEmpty_iff] at hresp
        constructor
        · cases hcase : last.responses with
          | nil => exact absurd hcase hresp
          | cons p ps =>
            dsimp only
            apply joinSep_ne_empty_of_head
            rw [String.length_append, String.length_append, String.length_append]
            have : ("From " : String).length = 5 := by decide
            omega
        · intro _
          rw [hlr]
  have hL := hmain (discussionLogOf mm gst query models rounds) hsynth
  unfold conductDiscussion
  rw [if_neg (by simp [hne])]
  refine ⟨rfl, ?_, ?_⟩
  · intro resp hresp
    simp only [outcomeResponse, Option.some.injEq] at hresp
    rw [← hresp]
    exact hL.1
  · intro hne2
    simp only [outcomeResponse, Option.some.injEq]
    exact hL.2 hne2

/-- C9 witness: a 2-round discussion among three known models whose
deep_thinking synthesizer is unreachable. -/
theorem C9_synthesis_fallback_witness :
    outcomeSuccess (conductDiscussion mmCE choiceCE gstCE "q" "d1" none (some 2)).1 = true ∧
    (∀ resp,
      outcomeResponse (conductDiscussion mmCE choiceCE gstCE "q" "d1" none (some 2)).1
        = some resp → resp ≠ "") ∧
    (lastRoundResponses (discussionLogOf mmCE gstCE "q" none (some 2)) ≠ [] →
      outcomeResponse (conductDiscussion mmCE choiceCE gstCE "q" "d1" none (some 2)).1 =
        some (fallbackCombined mmCE
          (lastRoundResponses (discussionLogOf mmCE gstCE "q" none (some 2))))) :=
  C9_synthesis_fallback mmCE choiceCE gstCE "q" "d1" none (some 2)
    (by decide) (fun _ _ => rfl)

/-- C10: every `update_weights_from_feedback` call leaves the key set
of the model-weights map unchanged, and after any call sequence from
initialization the weight keys are exactly the models created at
initialization (the keys of the loaded strengths table: configured
models plus the group-discussion pseudo-model) — even though win-rate
and selection-count entries may be created for unconfigured response
models along the way. -/
theorem C10_weights_key_frame :
    (∀ (st : OptState) (query : String) (responses : List (String × String))
        (sel : String) (score : Option ℚ),
      dkeys (updateWeightsFromFeedback st query responses sel score).1.modelWeights =
        dkeys st.modelWeights) ∧
    (∀ (cfg : OptConfig) (calls : List FeedbackCall),
      dkeys (applyFeedbackCalls cfg calls).modelWeights =
        dkeys (loadModelStrengths cfg)) := by
  constructor
  · exact updateWeightsFromFeedback_weights_keys
  · intro cfg calls
    unfold applyFeedbackCalls
    rw [foldl_feedbackCalls_weights_keys, initialState_weights_keys]

end HLMF
